import Mathlib

/-
Verification development for the personalized_learning content pipeline
(samples/personalized_learning/agent/openstax_modules.py and openstax_content.py).

The Python functions are embedded shallowly:
  - the static data tables are transcribed verbatim as association lists
    (Python dicts preserve insertion order and that order is kept here);
  - external effects (GCS reads, HTTP fetches, the Gemini collaborator, the
    stdlib XML parser, wall-clock time) are passed in as explicit arguments
    describing their outcome, mirroring the try/except structure of the code;
  - the one genuinely unordered structure, the Python set used by
    search_modules, is modelled by the insertion-ordered duplicate-free list
    of its elements together with an enumeration parameter standing for the
    unspecified iteration order of list(matched_ids); admissible enumerations
    are the permutations;
  - machine text is ASCII in this corpus, so str.lower, regex word characters
    and friends are modelled on ASCII.
-/

set_option maxRecDepth 40000

namespace A2UI

/-- Python str.lower restricted to ASCII. -/
def pyLower (l : List Char) : List Char := l.map Char.toLower

/-- Python str.upper restricted to ASCII. -/
def pyUpper (l : List Char) : List Char := l.map Char.toUpper

/-- The whitespace characters stripped by Python str.strip. -/
def pyIsSpace (c : Char) : Bool :=
  c == ' ' || c == '\t' || c == '\n' || c == '\r' || c == '\x0B' || c == '\x0C'

/-- Python str.strip with no arguments: drop whitespace from both ends. -/
def pyStrip (l : List Char) : List Char :=
  ((l.dropWhile pyIsSpace).reverse.dropWhile pyIsSpace).reverse

/-- Pack a character list back into a string. -/
def asString (l : List Char) : String := String.mk l

/-- Python regex word character (ASCII): letter, digit or underscore. -/
def isWordChar (c : Char) : Bool := c.isAlphanum || c == '_'

/-- Word-ness of an optional neighbouring character; the edge of the string counts as non-word. -/
def wordish : Option Char → Bool
  | some c => isWordChar c
  | none => false

/-- Boolean list-prefix test, written out so that kernel evaluation is cheap. -/
def listPrefixOf : List Char → List Char → Bool
  | [], _ => true
  | _ :: _, [] => false
  | a :: as, b :: bs => a == b && listPrefixOf as bs

/-- Python substring containment, the semantics of the expression keyword in topic_lower. -/
def substringOf (k hay : List Char) : Bool :=
  (List.range (hay.length + 1)).any (fun i => listPrefixOf k (hay.drop i))

/-- Whether the regex boundary conditions of a whole-word occurrence hold at the
split pre ++ k ++ post: each end of k sits at a word/non-word transition. -/
def wholeWordAt (k pre post : List Char) : Bool :=
  (wordish pre.getLast? != wordish k.head?) && (wordish k.getLast? != wordish post.head?)

/-- Semantics of re.search over the word-boundary pattern built in search_modules. -/
def wholeWordMatch (k topic : List Char) : Bool :=
  (List.range (topic.length + 1)).any (fun i =>
    listPrefixOf k (topic.drop i) && wholeWordAt k (topic.take i) (topic.drop (i + k.length)))

/-- Every occurrence of k in the topic is internal to a larger word: no occurrence
satisfies the word-boundary conditions. -/
def onlyInsideWords (k topic : List Char) : Bool :=
  (List.range (topic.length + 1)).all (fun i =>
    !(listPrefixOf k (topic.drop i)) || !(wholeWordAt k (topic.take i) (topic.drop (i + k.length))))

/-- Worker for splitWords, structurally recursive on a fuel bounded by the input
length so that the definition stays reducible inside the kernel; one unit of fuel
is spent per consumed character, so the initial fuel below never runs out. -/
def splitWordsFuel : Nat → List Char → List (List Char)
  | 0, _ => []
  | _ + 1, [] => []
  | fuel + 1, c :: cs =>
    if isWordChar c then (c :: cs.takeWhile isWordChar) :: splitWordsFuel fuel (cs.dropWhile isWordChar)
    else splitWordsFuel fuel cs

/-- The maximal runs of word characters, the semantics of re.findall of word runs
used by the title fallback of search_modules. -/
def splitWords (l : List Char) : List (List Char) := splitWordsFuel l.length l

/-- Non-empty intersection of two word sets, the truthiness of a Python set intersection. -/
def wordsIntersect (ws vs : List (List Char)) : Bool :=
  ws.any (fun w => vs.any (fun v => v == w))

/-- Order-preserving deduplication keeping first occurrences: the insertion-ordered
element list of a Python set populated by successive update calls. -/
def insertionDedupAux (seen : List String) : List String → List String
  | [] => []
  | x :: xs => if x ∈ seen then insertionDedupAux seen xs else x :: insertionDedupAux (x :: seen) xs

/-- Order-preserving deduplication (first occurrence wins). -/
def insertionDedup (l : List String) : List String := insertionDedupAux [] l

/-- Boolean sublist test: ids appear in the same relative order. -/
def isSublistB : List String → List String → Bool
  | [], _ => true
  | _ :: _, [] => false
  | a :: as, b :: bs => if a == b then isSublistB as bs else isSublistB (a :: as) bs

/-- Module metadata record of MODULE_INDEX: title, unit and chapter strings. -/
structure ModuleInfo where
  title : String
  unit : String
  chapter : String
deriving DecidableEq

/-- OPENSTAX_BASE_URL from openstax_modules.py. -/
def OPENSTAX_BASE_URL : String := "https://openstax.org/books/biology-ap-courses/pages"

/-- Transcription of the MODULE_TO_CHAPTER_SLUG dict of openstax_modules.py, as an insertion-ordered association list. -/
def MODULE_TO_CHAPTER_SLUG : List (String × String) := [
  ("m62761", "6-introduction"),
  ("m62763", "6-1-energy-and-metabolism"),
  ("m62764", "6-2-potential-kinetic-free-and-activation-energy"),
  ("m62767", "6-3-the-laws-of-thermodynamics"),
  ("m62768", "6-4-atp-adenosine-triphosphate"),
  ("m62778", "6-5-enzymes"),
  ("m62784", "7-introduction"),
  ("m62786", "7-1-energy-in-living-systems"),
  ("m62787", "7-2-glycolysis"),
  ("m62788", "7-3-oxidation-of-pyruvate-and-the-citric-acid-cycle"),
  ("m62789", "7-4-oxidative-phosphorylation"),
  ("m62790", "7-5-metabolism-without-oxygen"),
  ("m62791", "7-6-connections-of-carbohydrate-protein-and-lipid-metabolic-pathways"),
  ("m62792", "7-7-regulation-of-cellular-respiration"),
  ("m62793", "8-introduction"),
  ("m62794", "8-1-overview-of-photosynthesis"),
  ("m62795", "8-2-the-light-dependent-reaction-of-photosynthesis"),
  ("m62796", "8-3-using-light-to-make-organic-molecules"),
  ("m62736", "4-introduction"),
  ("m62738", "4-1-studying-cells"),
  ("m62740", "4-2-prokaryotic-cells"),
  ("m62742", "4-3-eukaryotic-cells"),
  ("m62743", "4-4-the-endomembrane-system-and-proteins"),
  ("m62744", "4-5-cytoskeleton"),
  ("m62746", "4-6-connections-between-cells-and-cellular-activities"),
  ("m62780", "5-introduction"),
  ("m62773", "5-1-components-and-structure"),
  ("m62753", "5-2-passive-transport"),
  ("m62770", "5-3-active-transport"),
  ("m62772", "5-4-bulk-transport"),
  ("m62797", "9-introduction"),
  ("m62798", "9-1-signaling-molecules-and-cellular-receptors"),
  ("m62799", "9-2-propagation-of-the-signal"),
  ("m62800", "9-3-response-to-the-signal"),
  ("m62801", "9-4-signaling-in-single-celled-organisms"),
  ("m62802", "10-introduction"),
  ("m62803", "10-1-cell-division"),
  ("m62804", "10-2-the-cell-cycle"),
  ("m62805", "10-3-control-of-the-cell-cycle"),
  ("m62806", "10-4-cancer-and-the-cell-cycle"),
  ("m62808", "10-5-prokaryotic-cell-division"),
  ("m62809", "11-introduction"),
  ("m62810", "11-1-the-process-of-meiosis"),
  ("m62811", "11-2-sexual-reproduction"),
  ("m62812", "12-introduction"),
  ("m62813", "12-1-mendels-experiments-and-the-laws-of-probability"),
  ("m62817", "12-2-characteristics-and-traits"),
  ("m62819", "12-3-laws-of-inheritance"),
  ("m62820", "13-introduction"),
  ("m62821", "13-1-chromosomal-theory-and-genetic-linkages"),
  ("m62822", "13-2-chromosomal-basis-of-inherited-disorders"),
  ("m62823", "14-introduction"),
  ("m62824", "14-1-historical-basis-of-modern-understanding"),
  ("m62825", "14-2-dna-structure-and-sequencing"),
  ("m62826", "14-3-basics-of-dna-replication"),
  ("m62828", "14-4-dna-replication-in-prokaryotes"),
  ("m62829", "14-5-dna-replication-in-eukaryotes"),
  ("m62830", "14-6-dna-repair"),
  ("m62833", "15-introduction"),
  ("m62837", "15-1-the-genetic-code"),
  ("m62838", "15-2-prokaryotic-transcription"),
  ("m62840", "15-3-eukaryotic-transcription"),
  ("m62842", "15-4-rna-processing-in-eukaryotes"),
  ("m62843", "15-5-ribosomes-and-protein-synthesis"),
  ("m62844", "16-introduction"),
  ("m62845", "16-1-regulation-of-gene-expression"),
  ("m62846", "16-2-prokaryotic-gene-regulation"),
  ("m62847", "16-3-eukaryotic-epigenetic-gene-regulation"),
  ("m62848", "16-4-eukaryotic-transcriptional-gene-regulation"),
  ("m62849", "16-5-eukaryotic-post-transcriptional-gene-regulation"),
  ("m62850", "16-6-eukaryotic-translational-and-post-translational-gene-regulation"),
  ("m62851", "16-7-cancer-and-gene-regulation"),
  ("m62852", "17-introduction"),
  ("m62853", "17-1-biotechnology"),
  ("m62855", "17-2-mapping-genomes"),
  ("m62857", "17-3-whole-genome-sequencing"),
  ("m62860", "17-4-applying-genomics"),
  ("m62861", "17-5-genomics-and-proteomics"),
  ("m62862", "18-introduction"),
  ("m62863", "18-1-understanding-evolution"),
  ("m62864", "18-2-formation-of-new-species"),
  ("m62865", "18-3-reconnection-and-rates-of-speciation"),
  ("m62866", "19-introduction"),
  ("m62868", "19-1-population-evolution"),
  ("m62870", "19-2-population-genetics"),
  ("m62871", "19-3-adaptive-evolution"),
  ("m62873", "20-introduction"),
  ("m62874", "20-1-organizing-life-on-earth"),
  ("m62903", "20-2-determining-evolutionary-relationships"),
  ("m62876", "20-3-perspectives-on-the-phylogenetic-tree"),
  ("m62877", "21-introduction"),
  ("m62881", "21-1-viral-evolution-morphology-and-classification"),
  ("m62882", "21-2-virus-infection-and-hosts"),
  ("m62904", "21-3-prevention-and-treatment-of-viral-infections"),
  ("m62887", "21-4-other-acellular-entities-prions-and-viroids"),
  ("m62889", "22-introduction"),
  ("m62891", "22-1-prokaryotic-diversity"),
  ("m62893", "22-2-structure-of-prokaryotes"),
  ("m62894", "22-3-prokaryotic-metabolism"),
  ("m62896", "22-4-bacterial-diseases-in-humans"),
  ("m62897", "22-5-beneficial-prokaryotes"),
  ("m62899", "23-introduction"),
  ("m62951", "23-1-the-plant-body"),
  ("m62905", "23-2-stems"),
  ("m62906", "23-3-roots"),
  ("m62908", "23-4-leaves"),
  ("m62969", "23-5-transport-of-water-and-solutes-in-plants"),
  ("m62930", "23-6-plant-sensory-systems-and-responses"),
  ("m62912", "24-introduction"),
  ("m62916", "24-1-animal-form-and-function"),
  ("m62918", "24-2-animal-primary-tissues"),
  ("m62931", "24-3-homeostasis"),
  ("m62933", "25-introduction"),
  ("m62919", "25-1-digestive-systems"),
  ("m62920", "25-2-nutrition-and-energy-production"),
  ("m62921", "25-3-digestive-system-processes"),
  ("m62922", "25-4-digestive-system-regulation"),
  ("m62923", "26-introduction"),
  ("m62924", "26-1-neurons-and-glial-cells"),
  ("m62925", "26-2-how-neurons-communicate"),
  ("m62926", "26-3-the-central-nervous-system"),
  ("m62928", "26-4-the-peripheral-nervous-system"),
  ("m62929", "26-5-nervous-system-disorders"),
  ("m62937", "27-introduction"),
  ("m62994", "27-1-sensory-processes"),
  ("m62946", "27-2-somatosensation"),
  ("m62947", "27-3-taste-and-smell"),
  ("m62954", "27-4-hearing-and-vestibular-sensation"),
  ("m62957", "27-5-vision"),
  ("m62959", "28-introduction"),
  ("m62961", "28-1-types-of-hormones"),
  ("m62963", "28-2-how-hormones-work"),
  ("m62996", "28-3-regulation-of-body-processes"),
  ("m62971", "28-4-regulation-of-hormone-production"),
  ("m62995", "28-5-endocrine-glands"),
  ("m62976", "29-introduction"),
  ("m62977", "29-1-types-of-skeletal-systems"),
  ("m62978", "29-2-bone"),
  ("m62979", "29-3-joints-and-skeletal-movement"),
  ("m62980", "29-4-muscle-contraction-and-locomotion"),
  ("m62981", "30-introduction"),
  ("m62982", "30-1-systems-of-gas-exchange"),
  ("m62998", "30-2-gas-exchange-across-respiratory-surfaces"),
  ("m62987", "30-3-breathing"),
  ("m62988", "30-4-transport-of-gases-in-human-bodily-fluids"),
  ("m62989", "31-introduction"),
  ("m62990", "31-1-overview-of-the-circulatory-system"),
  ("m62991", "31-2-components-of-the-blood"),
  ("m62992", "31-3-mammalian-heart-and-blood-vessels"),
  ("m62993", "31-4-blood-flow-and-blood-pressure-regulation"),
  ("m62997", "32-introduction"),
  ("m63000", "32-1-osmoregulation-and-osmotic-balance"),
  ("m63001", "32-2-the-kidneys-and-osmoregulatory-organs"),
  ("m63002", "32-3-excretion-systems"),
  ("m63003", "32-4-nitrogenous-wastes"),
  ("m63004", "32-5-hormonal-control-of-osmoregulatory-functions"),
  ("m63005", "33-introduction"),
  ("m63006", "33-1-innate-immune-response"),
  ("m63007", "33-2-adaptive-immune-response"),
  ("m63008", "33-3-antibodies"),
  ("m63009", "33-4-disruptions-in-the-immune-system"),
  ("m63010", "34-introduction"),
  ("m63011", "34-1-reproduction-methods"),
  ("m63012", "34-2-fertilization"),
  ("m63013", "34-3-human-reproductive-anatomy-and-gametogenesis"),
  ("m63014", "34-4-hormonal-control-of-human-reproduction"),
  ("m63016", "34-5-fertilization-and-early-embryonic-development"),
  ("m63043", "34-6-organogenesis-and-vertebrate-axis-formation"),
  ("m63018", "34-7-human-pregnancy-and-birth"),
  ("m63019", "35-introduction"),
  ("m63021", "35-1-the-scope-of-ecology"),
  ("m63023", "35-2-biogeography"),
  ("m63024", "35-3-terrestrial-biomes"),
  ("m63025", "35-4-aquatic-biomes"),
  ("m63026", "35-5-climate-and-the-effects-of-global-climate-change"),
  ("m63027", "36-introduction"),
  ("m63028", "36-1-population-demography"),
  ("m63029", "36-2-life-histories-and-natural-selection"),
  ("m63030", "36-3-environmental-limits-to-population-growth"),
  ("m63031", "36-4-population-dynamics-and-regulation"),
  ("m63032", "36-5-human-population-growth"),
  ("m63033", "36-6-community-ecology"),
  ("m63034", "36-7-behavioral-biology-proximate-and-ultimate-causes-of-behavior"),
  ("m63035", "37-introduction"),
  ("m63036", "37-1-ecology-for-ecosystems"),
  ("m63037", "37-2-energy-flow-through-ecosystems"),
  ("m63040", "37-3-biogeochemical-cycles"),
  ("m63047", "38-introduction"),
  ("m63048", "38-1-the-biodiversity-crisis"),
  ("m63049", "38-2-the-importance-of-biodiversity-to-human-life"),
  ("m63050", "38-3-threats-to-biodiversity"),
  ("m63051", "38-4-preserving-biodiversity"),
  ("m62716", "1-introduction"),
  ("m62717", "1-1-the-science-of-biology"),
  ("m62718", "1-2-themes-and-concepts-of-biology"),
  ("m62719", "2-introduction"),
  ("m62720", "2-1-atoms-isotopes-ions-and-molecules-the-building-blocks"),
  ("m62721", "2-2-water"),
  ("m62722", "2-3-carbon"),
  ("m62723", "3-introduction"),
  ("m62724", "3-1-synthesis-of-biological-macromolecules"),
  ("m62726", "3-2-carbohydrates"),
  ("m62730", "3-3-lipids"),
  ("m62733", "3-4-proteins"),
  ("m62735", "3-5-nucleic-acids")
]

/-- Transcription of the MODULE_INDEX dict of openstax_modules.py. -/
def MODULE_INDEX : List (String × ModuleInfo) := [
  ("m45849", ModuleInfo.mk "The Periodic Table of Elements" "Front Matter" "Front Matter"),
  ("m60107", ModuleInfo.mk "Geological Time" "Front Matter" "Front Matter"),
  ("m62716", ModuleInfo.mk "Introduction" "The Chemistry of Life" "The Study of Life"),
  ("m62717", ModuleInfo.mk "The Science of Biology" "The Chemistry of Life" "The Study of Life"),
  ("m62718", ModuleInfo.mk "Themes and Concepts of Biology" "The Chemistry of Life" "The Study of Life"),
  ("m62719", ModuleInfo.mk "Introduction" "The Chemistry of Life" "The Chemical Foundation of Life"),
  ("m62720", ModuleInfo.mk "Atoms, Isotopes, Ions, and Molecules: The Building Blocks" "The Chemistry of Life" "The Chemical Foundation of Life"),
  ("m62721", ModuleInfo.mk "Water" "The Chemistry of Life" "The Chemical Foundation of Life"),
  ("m62722", ModuleInfo.mk "Carbon" "The Chemistry of Life" "The Chemical Foundation of Life"),
  ("m62723", ModuleInfo.mk "Introduction" "The Chemistry of Life" "Biological Macromolecules"),
  ("m62724", ModuleInfo.mk "Synthesis of Biological Macromolecules" "The Chemistry of Life" "Biological Macromolecules"),
  ("m62726", ModuleInfo.mk "Carbohydrates" "The Chemistry of Life" "Biological Macromolecules"),
  ("m62730", ModuleInfo.mk "Lipids" "The Chemistry of Life" "Biological Macromolecules"),
  ("m62733", ModuleInfo.mk "Proteins" "The Chemistry of Life" "Biological Macromolecules"),
  ("m62735", ModuleInfo.mk "Nucleic Acids" "The Chemistry of Life" "Biological Macromolecules"),
  ("m62736", ModuleInfo.mk "Introduction" "The Cell" "Cell Structure"),
  ("m62738", ModuleInfo.mk "Studying Cells" "The Cell" "Cell Structure"),
  ("m62740", ModuleInfo.mk "Prokaryotic Cells" "The Cell" "Cell Structure"),
  ("m62742", ModuleInfo.mk "Eukaryotic Cells" "The Cell" "Cell Structure"),
  ("m62743", ModuleInfo.mk "The Endomembrane System and Proteins" "The Cell" "Cell Structure"),
  ("m62744", ModuleInfo.mk "Cytoskeleton" "The Cell" "Cell Structure"),
  ("m62746", ModuleInfo.mk "Connections between Cells and Cellular Activities" "The Cell" "Cell Structure"),
  ("m62753", ModuleInfo.mk "Passive Transport" "The Cell" "Structure and Function of Plasma Membranes"),
  ("m62761", ModuleInfo.mk "Introduction" "The Cell" "Metabolism"),
  ("m62763", ModuleInfo.mk "Energy and Metabolism" "The Cell" "Metabolism"),
  ("m62764", ModuleInfo.mk "Potential, Kinetic, Free, and Activation Energy" "The Cell" "Metabolism"),
  ("m62767", ModuleInfo.mk "The Laws of Thermodynamics" "The Cell" "Metabolism"),
  ("m62768", ModuleInfo.mk "ATP: Adenosine Triphosphate" "The Cell" "Metabolism"),
  ("m62770", ModuleInfo.mk "Active Transport" "The Cell" "Structure and Function of Plasma Membranes"),
  ("m62772", ModuleInfo.mk "Bulk Transport" "The Cell" "Structure and Function of Plasma Membranes"),
  ("m62773", ModuleInfo.mk "Components and Structure" "The Cell" "Structure and Function of Plasma Membranes"),
  ("m62778", ModuleInfo.mk "Enzymes" "The Cell" "Metabolism"),
  ("m62780", ModuleInfo.mk "Introduction" "The Cell" "Structure and Function of Plasma Membranes"),
  ("m62784", ModuleInfo.mk "Introduction" "The Cell" "Cellular Respiration"),
  ("m62786", ModuleInfo.mk "Energy in Living Systems" "The Cell" "Cellular Respiration"),
  ("m62787", ModuleInfo.mk "Glycolysis" "The Cell" "Cellular Respiration"),
  ("m62788", ModuleInfo.mk "Oxidation of Pyruvate and the Citric Acid Cycle" "The Cell" "Cellular Respiration"),
  ("m62789", ModuleInfo.mk "Oxidative Phosphorylation" "The Cell" "Cellular Respiration"),
  ("m62790", ModuleInfo.mk "Metabolism without Oxygen" "The Cell" "Cellular Respiration"),
  ("m62791", ModuleInfo.mk "Connections of Carbohydrate, Protein, and Lipid Metabolic Pathways" "The Cell" "Cellular Respiration"),
  ("m62792", ModuleInfo.mk "Regulation of Cellular Respiration" "The Cell" "Cellular Respiration"),
  ("m62793", ModuleInfo.mk "Introduction" "The Cell" "Photosynthesis"),
  ("m62794", ModuleInfo.mk "Overview of Photosynthesis" "The Cell" "Photosynthesis"),
  ("m62795", ModuleInfo.mk "The Light-Dependent Reaction of Photosynthesis" "The Cell" "Photosynthesis"),
  ("m62796", ModuleInfo.mk "Using Light to Make Organic Molecules" "The Cell" "Photosynthesis"),
  ("m62797", ModuleInfo.mk "Introduction" "The Cell" "Cell Communication"),
  ("m62798", ModuleInfo.mk "Signaling Molecules and Cellular Receptors" "The Cell" "Cell Communication"),
  ("m62799", ModuleInfo.mk "Propagation of the Signal" "The Cell" "Cell Communication"),
  ("m62800", ModuleInfo.mk "Response to the Signal" "The Cell" "Cell Communication"),
  ("m62801", ModuleInfo.mk "Signaling in Single-Celled Organisms" "The Cell" "Cell Communication"),
  ("m62802", ModuleInfo.mk "Introduction" "The Cell" "Cell Reproduction"),
  ("m62803", ModuleInfo.mk "Cell Division" "The Cell" "Cell Reproduction"),
  ("m62804", ModuleInfo.mk "The Cell Cycle" "The Cell" "Cell Reproduction"),
  ("m62805", ModuleInfo.mk "Control of the Cell Cycle" "The Cell" "Cell Reproduction"),
  ("m62806", ModuleInfo.mk "Cancer and the Cell Cycle" "The Cell" "Cell Reproduction"),
  ("m62808", ModuleInfo.mk "Prokaryotic Cell Division" "The Cell" "Cell Reproduction"),
  ("m62809", ModuleInfo.mk "Introduction" "Genetics" "Meiosis and Sexual Reproduction"),
  ("m62810", ModuleInfo.mk "The Process of Meiosis" "Genetics" "Meiosis and Sexual Reproduction"),
  ("m62811", ModuleInfo.mk "Sexual Reproduction" "Genetics" "Meiosis and Sexual Reproduction"),
  ("m62812", ModuleInfo.mk "Introduction" "Genetics" "Mendel's Experiments and Heredity"),
  ("m62813", ModuleInfo.mk "Mendel's Experiments and the Laws of Probability" "Genetics" "Mendel's Experiments and Heredity"),
  ("m62817", ModuleInfo.mk "Characteristics and Traits" "Genetics" "Mendel's Experiments and Heredity"),
  ("m62819", ModuleInfo.mk "Laws of Inheritance" "Genetics" "Mendel's Experiments and Heredity"),
  ("m62820", ModuleInfo.mk "Introduction" "Genetics" "Modern Understandings of Inheritance"),
  ("m62821", ModuleInfo.mk "Chromosomal Theory and Genetic Linkages" "Genetics" "Modern Understandings of Inheritance"),
  ("m62822", ModuleInfo.mk "Chromosomal Basis of Inherited Disorders" "Genetics" "Modern Understandings of Inheritance"),
  ("m62823", ModuleInfo.mk "Introduction" "Genetics" "DNA Structure and Function"),
  ("m62824", ModuleInfo.mk "Historical Basis of Modern Understanding" "Genetics" "DNA Structure and Function"),
  ("m62825", ModuleInfo.mk "DNA Structure and Sequencing" "Genetics" "DNA Structure and Function"),
  ("m62826", ModuleInfo.mk "Basics of DNA Replication" "Genetics" "DNA Structure and Function"),
  ("m62828", ModuleInfo.mk "DNA Replication in Prokaryotes" "Genetics" "DNA Structure and Function"),
  ("m62829", ModuleInfo.mk "DNA Replication in Eukaryotes" "Genetics" "DNA Structure and Function"),
  ("m62830", ModuleInfo.mk "DNA Repair" "Genetics" "DNA Structure and Function"),
  ("m62833", ModuleInfo.mk "Introduction" "Genetics" "Genes and Proteins"),
  ("m62837", ModuleInfo.mk "The Genetic Code" "Genetics" "Genes and Proteins"),
  ("m62838", ModuleInfo.mk "Prokaryotic Transcription" "Genetics" "Genes and Proteins"),
  ("m62840", ModuleInfo.mk "Eukaryotic Transcription" "Genetics" "Genes and Proteins"),
  ("m62842", ModuleInfo.mk "RNA Processing in Eukaryotes" "Genetics" "Genes and Proteins"),
  ("m62843", ModuleInfo.mk "Ribosomes and Protein Synthesis" "Genetics" "Genes and Proteins"),
  ("m62844", ModuleInfo.mk "Introduction" "Genetics" "Gene Regulation"),
  ("m62845", ModuleInfo.mk "Regulation of Gene Expression" "Genetics" "Gene Regulation"),
  ("m62846", ModuleInfo.mk "Prokaryotic Gene Regulation" "Genetics" "Gene Regulation"),
  ("m62847", ModuleInfo.mk "Eukaryotic Epigenetic Gene Regulation" "Genetics" "Gene Regulation"),
  ("m62848", ModuleInfo.mk "Eukaryotic Transcriptional Gene Regulation" "Genetics" "Gene Regulation"),
  ("m62849", ModuleInfo.mk "Eukaryotic Post-transcriptional Gene Regulation" "Genetics" "Gene Regulation"),
  ("m62850", ModuleInfo.mk "Eukaryotic Translational and Post-translational Gene Regulation" "Genetics" "Gene Regulation"),
  ("m62851", ModuleInfo.mk "Cancer and Gene Regulation" "Genetics" "Gene Regulation"),
  ("m62852", ModuleInfo.mk "Introduction" "Genetics" "Biotechnology and Genomics"),
  ("m62853", ModuleInfo.mk "Biotechnology" "Genetics" "Biotechnology and Genomics"),
  ("m62855", ModuleInfo.mk "Mapping Genomes" "Genetics" "Biotechnology and Genomics"),
  ("m62857", ModuleInfo.mk "Whole-Genome Sequencing" "Genetics" "Biotechnology and Genomics"),
  ("m62860", ModuleInfo.mk "Applying Genomics" "Genetics" "Biotechnology and Genomics"),
  ("m62861", ModuleInfo.mk "Genomics and Proteomics" "Genetics" "Biotechnology and Genomics"),
  ("m62862", ModuleInfo.mk "Introduction" "Evolutionary Processes" "Evolution and Origin of Species"),
  ("m62863", ModuleInfo.mk "Understanding Evolution" "Evolutionary Processes" "Evolution and Origin of Species"),
  ("m62864", ModuleInfo.mk "Formation of New Species" "Evolutionary Processes" "Evolution and Origin of Species"),
  ("m62865", ModuleInfo.mk "Reconnection and Rates of Speciation" "Evolutionary Processes" "Evolution and Origin of Species"),
  ("m62866", ModuleInfo.mk "Introduction" "Evolutionary Processes" "The Evolution of Populations"),
  ("m62868", ModuleInfo.mk "Population Evolution" "Evolutionary Processes" "The Evolution of Populations"),
  ("m62870", ModuleInfo.mk "Population Genetics" "Evolutionary Processes" "The Evolution of Populations"),
  ("m62871", ModuleInfo.mk "Adaptive Evolution" "Evolutionary Processes" "The Evolution of Populations"),
  ("m62873", ModuleInfo.mk "Introduction" "Evolutionary Processes" "Phylogenies and the History of Life"),
  ("m62874", ModuleInfo.mk "Organizing Life on Earth" "Evolutionary Processes" "Phylogenies and the History of Life"),
  ("m62876", ModuleInfo.mk "Perspectives on the Phylogenetic Tree" "Evolutionary Processes" "Phylogenies and the History of Life"),
  ("m62877", ModuleInfo.mk "Introduction" "Biological Diversity" "Viruses"),
  ("m62881", ModuleInfo.mk "Viral Evolution, Morphology, and Classification" "Biological Diversity" "Viruses"),
  ("m62882", ModuleInfo.mk "Virus Infection and Hosts" "Biological Diversity" "Viruses"),
  ("m62887", ModuleInfo.mk "Other Acellular Entities: Prions and Viroids" "Biological Diversity" "Viruses"),
  ("m62889", ModuleInfo.mk "Introduction" "Biological Diversity" "Prokaryotes: Bacteria and Archaea"),
  ("m62891", ModuleInfo.mk "Prokaryotic Diversity" "Biological Diversity" "Prokaryotes: Bacteria and Archaea"),
  ("m62893", ModuleInfo.mk "Structure of Prokaryotes" "Biological Diversity" "Prokaryotes: Bacteria and Archaea"),
  ("m62894", ModuleInfo.mk "Prokaryotic Metabolism" "Biological Diversity" "Prokaryotes: Bacteria and Archaea"),
  ("m62896", ModuleInfo.mk "Bacterial Diseases in Humans" "Biological Diversity" "Prokaryotes: Bacteria and Archaea"),
  ("m62897", ModuleInfo.mk "Beneficial Prokaryotes" "Biological Diversity" "Prokaryotes: Bacteria and Archaea"),
  ("m62899", ModuleInfo.mk "Introduction" "Plant Structure and Function" "Plant Form and Physiology"),
  ("m62903", ModuleInfo.mk "Determining Evolutionary Relationships" "Evolutionary Processes" "Phylogenies and the History of Life"),
  ("m62904", ModuleInfo.mk "Prevention and Treatment of Viral Infections" "Biological Diversity" "Viruses"),
  ("m62905", ModuleInfo.mk "Stems" "Plant Structure and Function" "Plant Form and Physiology"),
  ("m62906", ModuleInfo.mk "Roots" "Plant Structure and Function" "Plant Form and Physiology"),
  ("m62908", ModuleInfo.mk "Leaves" "Plant Structure and Function" "Plant Form and Physiology"),
  ("m62912", ModuleInfo.mk "Introduction" "Animal Structure and Function" "The Animal Body: Basic Form and Function"),
  ("m62916", ModuleInfo.mk "Animal Form and Function" "Animal Structure and Function" "The Animal Body: Basic Form and Function"),
  ("m62918", ModuleInfo.mk "Animal Primary Tissues" "Animal Structure and Function" "The Animal Body: Basic Form and Function"),
  ("m62919", ModuleInfo.mk "Digestive Systems" "Animal Structure and Function" "Animal Nutrition and the Digestive System"),
  ("m62920", ModuleInfo.mk "Nutrition and Energy Production" "Animal Structure and Function" "Animal Nutrition and the Digestive System"),
  ("m62921", ModuleInfo.mk "Digestive System Processes" "Animal Structure and Function" "Animal Nutrition and the Digestive System"),
  ("m62922", ModuleInfo.mk "Digestive System Regulation" "Animal Structure and Function" "Animal Nutrition and the Digestive System"),
  ("m62923", ModuleInfo.mk "Introduction" "Animal Structure and Function" "The Nervous System"),
  ("m62924", ModuleInfo.mk "Neurons and Glial Cells" "Animal Structure and Function" "The Nervous System"),
  ("m62925", ModuleInfo.mk "How Neurons Communicate" "Animal Structure and Function" "The Nervous System"),
  ("m62926", ModuleInfo.mk "The Central Nervous System" "Animal Structure and Function" "The Nervous System"),
  ("m62928", ModuleInfo.mk "The Peripheral Nervous System" "Animal Structure and Function" "The Nervous System"),
  ("m62929", ModuleInfo.mk "Nervous System Disorders" "Animal Structure and Function" "The Nervous System"),
  ("m62930", ModuleInfo.mk "Plant Sensory Systems and Responses" "Plant Structure and Function" "Plant Form and Physiology"),
  ("m62931", ModuleInfo.mk "Homeostasis" "Animal Structure and Function" "The Animal Body: Basic Form and Function"),
  ("m62933", ModuleInfo.mk "Introduction" "Animal Structure and Function" "Animal Nutrition and the Digestive System"),
  ("m62937", ModuleInfo.mk "Introduction" "Animal Structure and Function" "Sensory Systems"),
  ("m62946", ModuleInfo.mk "Somatosensation" "Animal Structure and Function" "Sensory Systems"),
  ("m62947", ModuleInfo.mk "Taste and Smell" "Animal Structure and Function" "Sensory Systems"),
  ("m62951", ModuleInfo.mk "The Plant Body" "Plant Structure and Function" "Plant Form and Physiology"),
  ("m62954", ModuleInfo.mk "Hearing and Vestibular Sensation" "Animal Structure and Function" "Sensory Systems"),
  ("m62957", ModuleInfo.mk "Vision" "Animal Structure and Function" "Sensory Systems"),
  ("m62959", ModuleInfo.mk "Introduction" "Animal Structure and Function" "The Endocrine System"),
  ("m62961", ModuleInfo.mk "Types of Hormones" "Animal Structure and Function" "The Endocrine System"),
  ("m62963", ModuleInfo.mk "How Hormones Work" "Animal Structure and Function" "The Endocrine System"),
  ("m62969", ModuleInfo.mk "Transport of Water and Solutes in Plants" "Plant Structure and Function" "Plant Form and Physiology"),
  ("m62971", ModuleInfo.mk "Regulation of Hormone Production" "Animal Structure and Function" "The Endocrine System"),
  ("m62976", ModuleInfo.mk "Introduction" "Animal Structure and Function" "The Musculoskeletal System"),
  ("m62977", ModuleInfo.mk "Types of Skeletal Systems" "Animal Structure and Function" "The Musculoskeletal System"),
  ("m62978", ModuleInfo.mk "Bone" "Animal Structure and Function" "The Musculoskeletal System"),
  ("m62979", ModuleInfo.mk "Joints and Skeletal Movement" "Animal Structure and Function" "The Musculoskeletal System"),
  ("m62980", ModuleInfo.mk "Muscle Contraction and Locomotion" "Animal Structure and Function" "The Musculoskeletal System"),
  ("m62981", ModuleInfo.mk "Introduction" "Animal Structure and Function" "The Respiratory System"),
  ("m62982", ModuleInfo.mk "Systems of Gas Exchange" "Animal Structure and Function" "The Respiratory System"),
  ("m62987", ModuleInfo.mk "Breathing" "Animal Structure and Function" "The Respiratory System"),
  ("m62988", ModuleInfo.mk "Transport of Gases in Human Bodily Fluids" "Animal Structure and Function" "The Respiratory System"),
  ("m62989", ModuleInfo.mk "Introduction" "Animal Structure and Function" "The Circulatory System"),
  ("m62990", ModuleInfo.mk "Overview of the Circulatory System" "Animal Structure and Function" "The Circulatory System"),
  ("m62991", ModuleInfo.mk "Components of the Blood" "Animal Structure and Function" "The Circulatory System"),
  ("m62992", ModuleInfo.mk "Mammalian Heart and Blood Vessels" "Animal Structure and Function" "The Circulatory System"),
  ("m62993", ModuleInfo.mk "Blood Flow and Blood Pressure Regulation" "Animal Structure and Function" "The Circulatory System"),
  ("m62994", ModuleInfo.mk "Sensory Processes" "Animal Structure and Function" "Sensory Systems"),
  ("m62995", ModuleInfo.mk "Endocrine Glands" "Animal Structure and Function" "The Endocrine System"),
  ("m62996", ModuleInfo.mk "Regulation of Body Processes" "Animal Structure and Function" "The Endocrine System"),
  ("m62997", ModuleInfo.mk "Introduction" "Animal Structure and Function" "Osmotic Regulation and Excretion"),
  ("m62998", ModuleInfo.mk "Gas Exchange across Respiratory Surfaces" "Animal Structure and Function" "The Respiratory System"),
  ("m63000", ModuleInfo.mk "Osmoregulation and Osmotic Balance" "Animal Structure and Function" "Osmotic Regulation and Excretion"),
  ("m63001", ModuleInfo.mk "The Kidneys and Osmoregulatory Organs" "Animal Structure and Function" "Osmotic Regulation and Excretion"),
  ("m63002", ModuleInfo.mk "Excretion Systems" "Animal Structure and Function" "Osmotic Regulation and Excretion"),
  ("m63003", ModuleInfo.mk "Nitrogenous Wastes" "Animal Structure and Function" "Osmotic Regulation and Excretion"),
  ("m63004", ModuleInfo.mk "Hormonal Control of Osmoregulatory Functions" "Animal Structure and Function" "Osmotic Regulation and Excretion"),
  ("m63005", ModuleInfo.mk "Introduction" "Animal Structure and Function" "The Immune System"),
  ("m63006", ModuleInfo.mk "Innate Immune Response" "Animal Structure and Function" "The Immune System"),
  ("m63007", ModuleInfo.mk "Adaptive Immune Response" "Animal Structure and Function" "The Immune System"),
  ("m63008", ModuleInfo.mk "Antibodies" "Animal Structure and Function" "The Immune System"),
  ("m63009", ModuleInfo.mk "Disruptions in the Immune System" "Animal Structure and Function" "The Immune System"),
  ("m63010", ModuleInfo.mk "Introduction" "Animal Structure and Function" "Animal Reproduction and Development"),
  ("m63011", ModuleInfo.mk "Reproduction Methods" "Animal Structure and Function" "Animal Reproduction and Development"),
  ("m63012", ModuleInfo.mk "Fertilization" "Animal Structure and Function" "Animal Reproduction and Development"),
  ("m63013", ModuleInfo.mk "Human Reproductive Anatomy and Gametogenesis" "Animal Structure and Function" "Animal Reproduction and Development"),
  ("m63014", ModuleInfo.mk "Hormonal Control of Human Reproduction" "Animal Structure and Function" "Animal Reproduction and Development"),
  ("m63016", ModuleInfo.mk "Fertilization and Early Embryonic Development" "Animal Structure and Function" "Animal Reproduction and Development"),
  ("m63018", ModuleInfo.mk "Human Pregnancy and Birth" "Animal Structure and Function" "Animal Reproduction and Development"),
  ("m63019", ModuleInfo.mk "Introduction" "Ecology" "Ecology and the Biosphere"),
  ("m63021", ModuleInfo.mk "The Scope of Ecology" "Ecology" "Ecology and the Biosphere"),
  ("m63023", ModuleInfo.mk "Biogeography" "Ecology" "Ecology and the Biosphere"),
  ("m63024", ModuleInfo.mk "Terrestrial Biomes" "Ecology" "Ecology and the Biosphere"),
  ("m63025", ModuleInfo.mk "Aquatic Biomes" "Ecology" "Ecology and the Biosphere"),
  ("m63026", ModuleInfo.mk "Climate and the Effects of Global Climate Change" "Ecology" "Ecology and the Biosphere"),
  ("m63027", ModuleInfo.mk "Introduction" "Ecology" "Population and Community Ecology"),
  ("m63028", ModuleInfo.mk "Population Demography" "Ecology" "Population and Community Ecology"),
  ("m63029", ModuleInfo.mk "Life Histories and Natural Selection" "Ecology" "Population and Community Ecology"),
  ("m63030", ModuleInfo.mk "Environmental Limits to Population Growth" "Ecology" "Population and Community Ecology"),
  ("m63031", ModuleInfo.mk "Population Dynamics and Regulation" "Ecology" "Population and Community Ecology"),
  ("m63032", ModuleInfo.mk "Human Population Growth" "Ecology" "Population and Community Ecology"),
  ("m63033", ModuleInfo.mk "Community Ecology" "Ecology" "Population and Community Ecology"),
  ("m63034", ModuleInfo.mk "Behavioral Biology: Proximate and Ultimate Causes of Behavior" "Ecology" "Population and Community Ecology"),
  ("m63035", ModuleInfo.mk "Introduction" "Ecology" "Ecosystems"),
  ("m63036", ModuleInfo.mk "Ecology for Ecosystems" "Ecology" "Ecosystems"),
  ("m63037", ModuleInfo.mk "Energy Flow through Ecosystems" "Ecology" "Ecosystems"),
  ("m63040", ModuleInfo.mk "Biogeochemical Cycles" "Ecology" "Ecosystems"),
  ("m63043", ModuleInfo.mk "Organogenesis and Vertebrate Axis Formation" "Animal Structure and Function" "Animal Reproduction and Development"),
  ("m63047", ModuleInfo.mk "Introduction" "Ecology" "Conservation Biology and Biodiversity"),
  ("m63048", ModuleInfo.mk "The Biodiversity Crisis" "Ecology" "Conservation Biology and Biodiversity"),
  ("m63049", ModuleInfo.mk "The Importance of Biodiversity to Human Life" "Ecology" "Conservation Biology and Biodiversity"),
  ("m63050", ModuleInfo.mk "Threats to Biodiversity" "Ecology" "Conservation Biology and Biodiversity"),
  ("m63051", ModuleInfo.mk "Preserving Biodiversity" "Ecology" "Conservation Biology and Biodiversity"),
  ("m64279", ModuleInfo.mk "Preface" "Front Matter" "Front Matter"),
  ("m66717", ModuleInfo.mk "Measurements and the Metric System" "Front Matter" "Front Matter")
]

/-- Transcription of the KEYWORD_TO_MODULES dict of openstax_modules.py; the few duplicated literal keys are resolved exactly as the Python dict literal resolves them (first position, last value). -/
def KEYWORD_TO_MODULES : List (String × List String) := [
  ("biology", ["m62717", "m62718"]),
  ("science", ["m62717"]),
  ("scientific method", ["m62717"]),
  ("hypothesis", ["m62717"]),
  ("theory", ["m62717"]),
  ("life", ["m62718"]),
  ("living things", ["m62718"]),
  ("characteristics of life", ["m62718"]),
  ("atom", ["m62720"]),
  ("atoms", ["m62720"]),
  ("element", ["m62720"]),
  ("elements", ["m62720"]),
  ("isotope", ["m62720"]),
  ("isotopes", ["m62720"]),
  ("ion", ["m62720"]),
  ("ions", ["m62720"]),
  ("molecule", ["m62720"]),
  ("molecules", ["m62720"]),
  ("chemical bond", ["m62720"]),
  ("covalent bond", ["m62720"]),
  ("ionic bond", ["m62720"]),
  ("hydrogen bond", ["m62721"]),
  ("water", ["m62721"]),
  ("polarity", ["m62721"]),
  ("cohesion", ["m62721"]),
  ("adhesion", ["m62721"]),
  ("solvent", ["m62721"]),
  ("ph", ["m62721"]),
  ("acid", ["m62721"]),
  ("base", ["m62721"]),
  ("buffer", ["m62721"]),
  ("carbon", ["m62722"]),
  ("organic", ["m62722"]),
  ("organic molecule", ["m62722"]),
  ("hydrocarbon", ["m62722"]),
  ("functional group", ["m62722"]),
  ("macromolecule", ["m62724", "m62726", "m62730", "m62733", "m62735"]),
  ("macromolecules", ["m62724", "m62726", "m62730", "m62733", "m62735"]),
  ("polymer", ["m62724"]),
  ("monomer", ["m62724"]),
  ("dehydration synthesis", ["m62724"]),
  ("hydrolysis", ["m62724", "m62768"]),
  ("carbohydrate", ["m62726"]),
  ("carbohydrates", ["m62726"]),
  ("sugar", ["m62726"]),
  ("sugars", ["m62726"]),
  ("glucose", ["m62726", "m62787"]),
  ("monosaccharide", ["m62726"]),
  ("disaccharide", ["m62726"]),
  ("polysaccharide", ["m62726"]),
  ("starch", ["m62726"]),
  ("glycogen", ["m62726"]),
  ("cellulose", ["m62726"]),
  ("lipid", ["m62730"]),
  ("lipids", ["m62730"]),
  ("fat", ["m62730"]),
  ("fats", ["m62730"]),
  ("fatty acid", ["m62730"]),
  ("triglyceride", ["m62730"]),
  ("phospholipid", ["m62730", "m62773"]),
  ("steroid", ["m62730"]),
  ("cholesterol", ["m62730"]),
  ("protein", ["m62733", "m62843"]),
  ("proteins", ["m62733", "m62843"]),
  ("amino acid", ["m62733"]),
  ("amino acids", ["m62733"]),
  ("peptide", ["m62733"]),
  ("peptide bond", ["m62733"]),
  ("polypeptide", ["m62733"]),
  ("protein structure", ["m62733"]),
  ("primary structure", ["m62733"]),
  ("secondary structure", ["m62733"]),
  ("tertiary structure", ["m62733"]),
  ("quaternary structure", ["m62733"]),
  ("nucleic acid", ["m62735"]),
  ("nucleic acids", ["m62735"]),
  ("nucleotide", ["m62735"]),
  ("nucleotides", ["m62735"]),
  ("cell", ["m62738", "m62740", "m62742"]),
  ("cells", ["m62738", "m62740", "m62742"]),
  ("cell theory", ["m62738"]),
  ("microscope", ["m62738"]),
  ("prokaryote", ["m62740", "m62891"]),
  ("prokaryotes", ["m62740", "m62891"]),
  ("prokaryotic", ["m62740", "m62808", "m62891"]),
  ("prokaryotic cell", ["m62740"]),
  ("eukaryote", ["m62742"]),
  ("eukaryotes", ["m62742"]),
  ("eukaryotic", ["m62742", "m62829"]),
  ("eukaryotic cell", ["m62742"]),
  ("organelle", ["m62742", "m62743"]),
  ("organelles", ["m62742", "m62743"]),
  ("nucleus", ["m62742"]),
  ("nucleolus", ["m62742"]),
  ("ribosome", ["m62742", "m62843"]),
  ("ribosomes", ["m62742", "m62843"]),
  ("mitochondria", ["m62742", "m62789"]),
  ("mitochondrion", ["m62742", "m62789"]),
  ("chloroplast", ["m62742", "m62794"]),
  ("chloroplasts", ["m62742", "m62794"]),
  ("endoplasmic reticulum", ["m62743"]),
  ("rough er", ["m62743"]),
  ("smooth er", ["m62743"]),
  ("golgi apparatus", ["m62743"]),
  ("golgi", ["m62743"]),
  ("lysosome", ["m62743"]),
  ("lysosomes", ["m62743"]),
  ("vacuole", ["m62743"]),
  ("peroxisome", ["m62743"]),
  ("endomembrane system", ["m62743"]),
  ("endomembrane", ["m62743"]),
  ("cytoskeleton", ["m62744"]),
  ("microtubule", ["m62744"]),
  ("microfilament", ["m62744"]),
  ("intermediate filament", ["m62744"]),
  ("cilia", ["m62744"]),
  ("flagella", ["m62744"]),
  ("cell wall", ["m62746"]),
  ("extracellular matrix", ["m62746"]),
  ("cell junction", ["m62746"]),
  ("tight junction", ["m62746"]),
  ("gap junction", ["m62746"]),
  ("plasmodesmata", ["m62746"]),
  ("membrane", ["m62773", "m62753", "m62770"]),
  ("plasma membrane", ["m62773"]),
  ("cell membrane", ["m62773"]),
  ("fluid mosaic model", ["m62773"]),
  ("membrane protein", ["m62773"]),
  ("transport", ["m62753", "m62770", "m62772"]),
  ("passive transport", ["m62753"]),
  ("active transport", ["m62770"]),
  ("diffusion", ["m62753"]),
  ("facilitated diffusion", ["m62753"]),
  ("osmosis", ["m62753", "m63000"]),
  ("tonicity", ["m62753"]),
  ("hypertonic", ["m62753"]),
  ("hypotonic", ["m62753"]),
  ("isotonic", ["m62753"]),
  ("sodium potassium pump", ["m62770"]),
  ("electrochemical gradient", ["m62770"]),
  ("endocytosis", ["m62772"]),
  ("exocytosis", ["m62772"]),
  ("phagocytosis", ["m62772"]),
  ("pinocytosis", ["m62772"]),
  ("bulk transport", ["m62772"]),
  ("metabolism", ["m62763", "m62778", "m62761"]),
  ("metabolic", ["m62763"]),
  ("energy", ["m62763", "m62768", "m62764", "m62786"]),
  ("potential energy", ["m62764"]),
  ("kinetic energy", ["m62764"]),
  ("free energy", ["m62764"]),
  ("gibbs free energy", ["m62764"]),
  ("activation energy", ["m62764"]),
  ("exergonic", ["m62764"]),
  ("endergonic", ["m62764"]),
  ("thermodynamics", ["m62767"]),
  ("first law of thermodynamics", ["m62767"]),
  ("second law of thermodynamics", ["m62767"]),
  ("entropy", ["m62767"]),
  ("atp", ["m62768", "m62763", "m62786"]),
  ("adenosine triphosphate", ["m62768"]),
  ("adp", ["m62768"]),
  ("phosphorylation", ["m62768", "m62789"]),
  ("enzyme", ["m62921", "m62778"]),
  ("enzymes", ["m62778"]),
  ("catalyst", ["m62778"]),
  ("active site", ["m62778"]),
  ("substrate", ["m62778"]),
  ("cofactor", ["m62778"]),
  ("coenzyme", ["m62778"]),
  ("inhibitor", ["m62778"]),
  ("competitive inhibition", ["m62778"]),
  ("noncompetitive inhibition", ["m62778"]),
  ("allosteric", ["m62778"]),
  ("feedback inhibition", ["m62778"]),
  ("cellular respiration", ["m62786", "m62787", "m62788", "m62789"]),
  ("respiration", ["m62786", "m62787", "m62788", "m62789"]),
  ("aerobic respiration", ["m62786", "m62789"]),
  ("glycolysis", ["m62787"]),
  ("pyruvate", ["m62787", "m62788"]),
  ("citric acid cycle", ["m62788"]),
  ("citric acid", ["m62788"]),
  ("krebs cycle", ["m62788"]),
  ("krebs", ["m62788"]),
  ("tca cycle", ["m62788"]),
  ("tca", ["m62788"]),
  ("acetyl coa", ["m62788"]),
  ("nadh", ["m62788", "m62789"]),
  ("fadh2", ["m62788", "m62789"]),
  ("electron transport chain", ["m62789"]),
  ("electron transport", ["m62789"]),
  ("oxidative phosphorylation", ["m62789"]),
  ("chemiosmosis", ["m62789"]),
  ("atp synthase", ["m62789"]),
  ("fermentation", ["m62790"]),
  ("anaerobic", ["m62790"]),
  ("anaerobic respiration", ["m62790"]),
  ("lactic acid fermentation", ["m62790"]),
  ("alcohol fermentation", ["m62790"]),
  ("photosynthesis", ["m62794", "m62795", "m62796"]),
  ("chlorophyll", ["m62794", "m62795"]),
  ("pigment", ["m62794"]),
  ("light reaction", ["m62795"]),
  ("light reactions", ["m62795"]),
  ("light dependent reactions", ["m62795"]),
  ("photosystem", ["m62795"]),
  ("photosystem i", ["m62795"]),
  ("photosystem ii", ["m62795"]),
  ("calvin cycle", ["m62796"]),
  ("light independent reactions", ["m62796"]),
  ("carbon fixation", ["m62796"]),
  ("rubisco", ["m62796"]),
  ("c3 plant", ["m62796"]),
  ("c4 plant", ["m62796"]),
  ("cam plant", ["m62796"]),
  ("cell signaling", ["m62798", "m62799", "m62800"]),
  ("cell communication", ["m62798", "m62799"]),
  ("signal transduction", ["m62799"]),
  ("signaling molecule", ["m62798"]),
  ("ligand", ["m62798"]),
  ("receptor", ["m62798"]),
  ("receptor protein", ["m62798"]),
  ("g protein", ["m62799"]),
  ("second messenger", ["m62799"]),
  ("camp", ["m62799"]),
  ("signal cascade", ["m62799"]),
  ("kinase", ["m62799"]),
  ("phosphatase", ["m62799"]),
  ("apoptosis", ["m62800"]),
  ("programmed cell death", ["m62800"]),
  ("cell division", ["m62803"]),
  ("cell cycle", ["m62804", "m62805"]),
  ("interphase", ["m62804"]),
  ("mitosis", ["m62803", "m62804"]),
  ("mitotic phase", ["m62803"]),
  ("prophase", ["m62803"]),
  ("metaphase", ["m62803"]),
  ("anaphase", ["m62803"]),
  ("telophase", ["m62803"]),
  ("cytokinesis", ["m62803"]),
  ("cell plate", ["m62803"]),
  ("cleavage furrow", ["m62803"]),
  ("spindle", ["m62803"]),
  ("centrosome", ["m62803"]),
  ("centriole", ["m62803"]),
  ("checkpoint", ["m62805"]),
  ("cyclin", ["m62805"]),
  ("cdk", ["m62805"]),
  ("cancer", ["m62806", "m62851"]),
  ("tumor", ["m62806"]),
  ("oncogene", ["m62806"]),
  ("tumor suppressor", ["m62806"]),
  ("p53", ["m62806"]),
  ("binary fission", ["m62808"]),
  ("meiosis", ["m62810"]),
  ("meiosis i", ["m62810"]),
  ("meiosis ii", ["m62810"]),
  ("homologous chromosomes", ["m62810"]),
  ("crossing over", ["m62810"]),
  ("recombination", ["m62810"]),
  ("synapsis", ["m62810"]),
  ("tetrad", ["m62810"]),
  ("chiasma", ["m62810"]),
  ("independent assortment", ["m62810"]),
  ("haploid", ["m62810", "m62811"]),
  ("diploid", ["m62810", "m62811"]),
  ("gamete", ["m62811"]),
  ("gametes", ["m62811"]),
  ("sexual reproduction", ["m63011", "m62811"]),
  ("asexual reproduction", ["m63011"]),
  ("genetic variation", ["m62811"]),
  ("mendel", ["m62813"]),
  ("mendelian genetics", ["m62813"]),
  ("heredity", ["m62819", "m62813"]),
  ("inheritance", ["m62819"]),
  ("trait", ["m62817"]),
  ("traits", ["m62817"]),
  ("allele", ["m62817", "m62819"]),
  ("alleles", ["m62817", "m62819"]),
  ("dominant", ["m62817"]),
  ("recessive", ["m62817"]),
  ("genotype", ["m62817"]),
  ("phenotype", ["m62817"]),
  ("homozygous", ["m62817"]),
  ("heterozygous", ["m62817"]),
  ("punnett square", ["m62813"]),
  ("law of segregation", ["m62819"]),
  ("law of independent assortment", ["m62819"]),
  ("monohybrid cross", ["m62813"]),
  ("dihybrid cross", ["m62819"]),
  ("test cross", ["m62813"]),
  ("chromosome", ["m62821", "m62822"]),
  ("chromosomes", ["m62821", "m62822"]),
  ("chromosomal theory", ["m62821"]),
  ("linked genes", ["m62821"]),
  ("linkage", ["m62821"]),
  ("sex linkage", ["m62821"]),
  ("x linked", ["m62821"]),
  ("y linked", ["m62821"]),
  ("sex chromosome", ["m62821"]),
  ("autosome", ["m62821"]),
  ("chromosomal disorder", ["m62822"]),
  ("nondisjunction", ["m62822"]),
  ("aneuploidy", ["m62822"]),
  ("polyploidy", ["m62822"]),
  ("down syndrome", ["m62822"]),
  ("trisomy", ["m62822"]),
  ("monosomy", ["m62822"]),
  ("deletion", ["m62822"]),
  ("duplication", ["m62822"]),
  ("inversion", ["m62822"]),
  ("translocation", ["m62822"]),
  ("dna", ["m62825", "m62826", "m62828", "m62829"]),
  ("deoxyribonucleic acid", ["m62825"]),
  ("double helix", ["m62825"]),
  ("watson and crick", ["m62824"]),
  ("chargaff", ["m62824"]),
  ("base pair", ["m62825"]),
  ("complementary base pairing", ["m62825"]),
  ("adenine", ["m62825"]),
  ("thymine", ["m62825"]),
  ("guanine", ["m62825"]),
  ("cytosine", ["m62825"]),
  ("dna replication", ["m62826", "m62828", "m62829"]),
  ("semiconservative replication", ["m62826"]),
  ("origin of replication", ["m62826"]),
  ("replication fork", ["m62826"]),
  ("helicase", ["m62826"]),
  ("dna polymerase", ["m62826", "m62828"]),
  ("primase", ["m62826"]),
  ("ligase", ["m62826"]),
  ("leading strand", ["m62826"]),
  ("lagging strand", ["m62826"]),
  ("okazaki fragment", ["m62826"]),
  ("telomere", ["m62829"]),
  ("telomerase", ["m62829"]),
  ("dna repair", ["m62830"]),
  ("mismatch repair", ["m62830"]),
  ("mutation", ["m62868", "m62830"]),
  ("genetic code", ["m62837"]),
  ("codon", ["m62837"]),
  ("anticodon", ["m62837"]),
  ("start codon", ["m62837"]),
  ("stop codon", ["m62837"]),
  ("central dogma", ["m62837"]),
  ("transcription", ["m62838", "m62840"]),
  ("rna polymerase", ["m62838", "m62840"]),
  ("promoter", ["m62838", "m62840"]),
  ("terminator", ["m62838"]),
  ("mrna", ["m62838", "m62842"]),
  ("messenger rna", ["m62838", "m62842"]),
  ("rna", ["m62842", "m62735"]),
  ("rna processing", ["m62842"]),
  ("splicing", ["m62842"]),
  ("intron", ["m62842"]),
  ("exon", ["m62842"]),
  ("5 cap", ["m62842"]),
  ("poly a tail", ["m62842"]),
  ("translation", ["m62843"]),
  ("protein synthesis", ["m62843"]),
  ("trna", ["m62843"]),
  ("transfer rna", ["m62843"]),
  ("rrna", ["m62843"]),
  ("ribosomal rna", ["m62843"]),
  ("gene", ["m62845", "m62837"]),
  ("genes", ["m62845", "m62837"]),
  ("gene expression", ["m62845"]),
  ("gene regulation", ["m62845", "m62846", "m62847"]),
  ("operon", ["m62846"]),
  ("lac operon", ["m62846"]),
  ("trp operon", ["m62846"]),
  ("repressor", ["m62846"]),
  ("inducer", ["m62846"]),
  ("epigenetics", ["m62847"]),
  ("epigenetic", ["m62847"]),
  ("dna methylation", ["m62847"]),
  ("histone modification", ["m62847"]),
  ("chromatin", ["m62847"]),
  ("transcription factor", ["m62848"]),
  ("enhancer", ["m62848"]),
  ("silencer", ["m62848"]),
  ("alternative splicing", ["m62849"]),
  ("microrna", ["m62849"]),
  ("sirna", ["m62849"]),
  ("rna interference", ["m62849"]),
  ("biotechnology", ["m62853"]),
  ("genetic engineering", ["m62853"]),
  ("recombinant dna", ["m62853"]),
  ("restriction enzyme", ["m62853"]),
  ("plasmid", ["m62853"]),
  ("vector", ["m62853"]),
  ("transformation", ["m62853"]),
  ("pcr", ["m62853"]),
  ("polymerase chain reaction", ["m62853"]),
  ("gel electrophoresis", ["m62853"]),
  ("cloning", ["m62853"]),
  ("transgenic", ["m62853"]),
  ("gmo", ["m62853"]),
  ("crispr", ["m62853"]),
  ("gene therapy", ["m62853"]),
  ("genome", ["m62855", "m62857"]),
  ("genomics", ["m62860", "m62861"]),
  ("genome mapping", ["m62855"]),
  ("physical map", ["m62855"]),
  ("genetic map", ["m62855"]),
  ("sequencing", ["m62857"]),
  ("whole genome sequencing", ["m62857"]),
  ("human genome project", ["m62857"]),
  ("proteomics", ["m62861"]),
  ("bioinformatics", ["m62860"]),
  ("evolution", ["m62863", "m62868"]),
  ("darwin", ["m62863"]),
  ("natural selection", ["m62871", "m63029"]),
  ("descent with modification", ["m62863"]),
  ("common ancestor", ["m62863"]),
  ("adaptation", ["m62871"]),
  ("fitness", ["m62871"]),
  ("speciation", ["m62864"]),
  ("species", ["m62864"]),
  ("reproductive isolation", ["m62864"]),
  ("prezygotic barrier", ["m62864"]),
  ("postzygotic barrier", ["m62864"]),
  ("allopatric speciation", ["m62864"]),
  ("sympatric speciation", ["m62864"]),
  ("adaptive radiation", ["m62865"]),
  ("convergent evolution", ["m62865"]),
  ("divergent evolution", ["m62865"]),
  ("coevolution", ["m62865"]),
  ("population genetics", ["m62870"]),
  ("gene pool", ["m62870"]),
  ("allele frequency", ["m62870"]),
  ("hardy weinberg", ["m62870"]),
  ("hardy weinberg equilibrium", ["m62870"]),
  ("genetic drift", ["m62868"]),
  ("bottleneck effect", ["m62868"]),
  ("founder effect", ["m62868"]),
  ("gene flow", ["m62868"]),
  ("nonrandom mating", ["m62868"]),
  ("sexual selection", ["m62871"]),
  ("directional selection", ["m62871"]),
  ("stabilizing selection", ["m62871"]),
  ("disruptive selection", ["m62871"]),
  ("balancing selection", ["m62871"]),
  ("phylogeny", ["m62874", "m62903"]),
  ("phylogenetic tree", ["m62874", "m62903"]),
  ("cladogram", ["m62903"]),
  ("taxonomy", ["m62874"]),
  ("classification", ["m62874"]),
  ("binomial nomenclature", ["m62874"]),
  ("domain", ["m62874"]),
  ("kingdom", ["m62874"]),
  ("phylum", ["m62874"]),
  ("class", ["m62874"]),
  ("order", ["m62874"]),
  ("family", ["m62874"]),
  ("genus", ["m62874"]),
  ("clade", ["m62903"]),
  ("monophyletic", ["m62903"]),
  ("homology", ["m62903"]),
  ("analogy", ["m62903"]),
  ("molecular clock", ["m62903"]),
  ("virus", ["m62881", "m62882", "m62904"]),
  ("viruses", ["m62881", "m62882", "m62904"]),
  ("viral", ["m62881", "m62882"]),
  ("capsid", ["m62881"]),
  ("viral envelope", ["m62881"]),
  ("bacteriophage", ["m62881"]),
  ("lytic cycle", ["m62882"]),
  ("lysogenic cycle", ["m62882"]),
  ("retrovirus", ["m62882"]),
  ("reverse transcriptase", ["m62882"]),
  ("hiv", ["m62882"]),
  ("aids", ["m62882"]),
  ("vaccine", ["m62904"]),
  ("vaccination", ["m62904"]),
  ("antiviral", ["m62904"]),
  ("prion", ["m62887"]),
  ("viroid", ["m62887"]),
  ("bacteria", ["m62891", "m62893", "m62896"]),
  ("bacterial", ["m62891", "m62893", "m62896"]),
  ("archaea", ["m62891"]),
  ("prokaryotic diversity", ["m62891"]),
  ("bacterial structure", ["m62893"]),
  ("peptidoglycan", ["m62893"]),
  ("gram positive", ["m62893"]),
  ("gram negative", ["m62893"]),
  ("bacterial metabolism", ["m62894"]),
  ("nitrogen fixation", ["m62894"]),
  ("bioremediation", ["m62897"]),
  ("pathogen", ["m63006"]),
  ("bacterial disease", ["m62896"]),
  ("antibiotic", ["m62896"]),
  ("antibiotic resistance", ["m62896"]),
  ("plant", ["m62951", "m62905", "m62906", "m62908"]),
  ("plants", ["m62951", "m62905", "m62906", "m62908"]),
  ("plant body", ["m62951"]),
  ("root", ["m62906"]),
  ("roots", ["m62906"]),
  ("root system", ["m62906"]),
  ("stem", ["m62905"]),
  ("stems", ["m62905"]),
  ("shoot system", ["m62905"]),
  ("leaf", ["m62908"]),
  ("leaves", ["m62908"]),
  ("vascular tissue", ["m62969"]),
  ("xylem", ["m62969"]),
  ("phloem", ["m62969"]),
  ("transpiration", ["m62969"]),
  ("stomata", ["m62908"]),
  ("guard cell", ["m62908"]),
  ("meristem", ["m62951"]),
  ("apical meristem", ["m62951"]),
  ("lateral meristem", ["m62951"]),
  ("dermal tissue", ["m62951"]),
  ("ground tissue", ["m62951"]),
  ("plant hormone", ["m62930"]),
  ("auxin", ["m62930"]),
  ("gibberellin", ["m62930"]),
  ("cytokinin", ["m62930"]),
  ("tropism", ["m62930"]),
  ("phototropism", ["m62930"]),
  ("gravitropism", ["m62930"]),
  ("photoperiodism", ["m62930"]),
  ("animal", ["m62916", "m62918"]),
  ("animal body", ["m62916"]),
  ("body plan", ["m62916"]),
  ("tissue", ["m62918"]),
  ("tissues", ["m62918"]),
  ("epithelial tissue", ["m62918"]),
  ("connective tissue", ["m62918"]),
  ("muscle tissue", ["m62918"]),
  ("nervous tissue", ["m62918"]),
  ("organ", ["m62916"]),
  ("organ system", ["m62916"]),
  ("homeostasis", ["m62931"]),
  ("negative feedback", ["m62931"]),
  ("positive feedback", ["m62931"]),
  ("thermoregulation", ["m62931"]),
  ("digestive system", ["m62919", "m62921", "m62922"]),
  ("digestive", ["m62919", "m62921"]),
  ("digestion", ["m62919", "m62921"]),
  ("nutrition", ["m62920"]),
  ("nutrient", ["m62920"]),
  ("nutrients", ["m62920"]),
  ("vitamin", ["m62920"]),
  ("mineral", ["m62920"]),
  ("mouth", ["m62921"]),
  ("esophagus", ["m62921"]),
  ("stomach", ["m62921"]),
  ("small intestine", ["m62921"]),
  ("large intestine", ["m62921"]),
  ("intestine", ["m62921"]),
  ("liver", ["m62921"]),
  ("pancreas", ["m62921", "m62995", "m62996"]),
  ("gallbladder", ["m62921"]),
  ("peristalsis", ["m62921"]),
  ("absorption", ["m62921"]),
  ("villi", ["m62921"]),
  ("nervous system", ["m62924", "m62925", "m62926", "m62928"]),
  ("neuron", ["m62924", "m62925"]),
  ("neurons", ["m62924", "m62925"]),
  ("nerve", ["m62924"]),
  ("nerves", ["m62924"]),
  ("glial cell", ["m62924"]),
  ("dendrite", ["m62924"]),
  ("axon", ["m62924"]),
  ("myelin", ["m62924"]),
  ("synapse", ["m62925"]),
  ("neurotransmitter", ["m62925"]),
  ("action potential", ["m62925"]),
  ("resting potential", ["m62925"]),
  ("depolarization", ["m62925"]),
  ("repolarization", ["m62925"]),
  ("brain", ["m62926"]),
  ("cerebrum", ["m62926"]),
  ("cerebellum", ["m62926"]),
  ("brainstem", ["m62926"]),
  ("spinal cord", ["m62926"]),
  ("central nervous system", ["m62926"]),
  ("cns", ["m62926"]),
  ("peripheral nervous system", ["m62928"]),
  ("pns", ["m62928"]),
  ("autonomic nervous system", ["m62928"]),
  ("sympathetic", ["m62928"]),
  ("parasympathetic", ["m62928"]),
  ("somatic nervous system", ["m62928"]),
  ("reflex", ["m62928"]),
  ("sensory", ["m62994", "m62946", "m62957"]),
  ("sensory system", ["m62994"]),
  ("sensory receptor", ["m62994"]),
  ("sensation", ["m62994"]),
  ("perception", ["m62994"]),
  ("somatosensation", ["m62946"]),
  ("touch", ["m62946"]),
  ("pain", ["m62946"]),
  ("proprioception", ["m62946"]),
  ("taste", ["m62947"]),
  ("gustation", ["m62947"]),
  ("smell", ["m62947"]),
  ("olfaction", ["m62947"]),
  ("hearing", ["m62954"]),
  ("ear", ["m62954"]),
  ("cochlea", ["m62954"]),
  ("vestibular", ["m62954"]),
  ("balance", ["m62954"]),
  ("vision", ["m62957"]),
  ("eye", ["m62957"]),
  ("retina", ["m62957"]),
  ("rod", ["m62957"]),
  ("cone", ["m62957"]),
  ("lens", ["m62957"]),
  ("cornea", ["m62957"]),
  ("photoreceptor", ["m62957"]),
  ("endocrine", ["m62961", "m62963", "m62995", "m62996", "m62971"]),
  ("endocrine system", ["m62961", "m62963", "m62995", "m62996", "m62971"]),
  ("hormone", ["m62961", "m62963", "m62971", "m62996"]),
  ("hormones", ["m62961", "m62963", "m62971", "m62996"]),
  ("gland", ["m62995"]),
  ("glands", ["m62995"]),
  ("endocrine gland", ["m62995"]),
  ("exocrine gland", ["m62995"]),
  ("pituitary", ["m62995", "m62971"]),
  ("pituitary gland", ["m62995", "m62971"]),
  ("hypothalamus", ["m62971", "m62995"]),
  ("thyroid", ["m62995", "m62996"]),
  ("thyroid gland", ["m62995"]),
  ("parathyroid", ["m62995"]),
  ("adrenal", ["m62995"]),
  ("adrenal gland", ["m62995"]),
  ("cortisol", ["m62995"]),
  ("adrenaline", ["m62995"]),
  ("epinephrine", ["m62995"]),
  ("insulin", ["m62996", "m62995"]),
  ("glucagon", ["m62996"]),
  ("diabetes", ["m62996"]),
  ("growth hormone", ["m62971"]),
  ("testosterone", ["m62995"]),
  ("estrogen", ["m62995"]),
  ("progesterone", ["m62995"]),
  ("feedback loop", ["m62971"]),
  ("musculoskeletal", ["m62977", "m62978", "m62980"]),
  ("skeletal system", ["m62977", "m62978"]),
  ("skeleton", ["m62977"]),
  ("bone", ["m62978"]),
  ("bones", ["m62978"]),
  ("cartilage", ["m62978"]),
  ("joint", ["m62979"]),
  ("joints", ["m62979"]),
  ("ligament", ["m62979"]),
  ("tendon", ["m62979"]),
  ("muscle", ["m62980"]),
  ("muscles", ["m62980"]),
  ("muscular system", ["m62980"]),
  ("skeletal muscle", ["m62980"]),
  ("smooth muscle", ["m62980"]),
  ("cardiac muscle", ["m62980"]),
  ("muscle contraction", ["m62980"]),
  ("sarcomere", ["m62980"]),
  ("actin", ["m62980"]),
  ("myosin", ["m62980"]),
  ("sliding filament", ["m62980"]),
  ("respiratory system", ["m62982", "m62987", "m62988"]),
  ("respiratory", ["m62982", "m62987"]),
  ("breathing", ["m62987"]),
  ("lung", ["m62982"]),
  ("lungs", ["m62982"]),
  ("gas exchange", ["m62982", "m62998"]),
  ("alveoli", ["m62982"]),
  ("alveolus", ["m62982"]),
  ("trachea", ["m62982"]),
  ("bronchi", ["m62982"]),
  ("bronchiole", ["m62982"]),
  ("diaphragm", ["m62987"]),
  ("inhalation", ["m62987"]),
  ("exhalation", ["m62987"]),
  ("ventilation", ["m62987"]),
  ("hemoglobin", ["m62988"]),
  ("oxygen transport", ["m62988"]),
  ("carbon dioxide transport", ["m62988"]),
  ("circulatory system", ["m62990", "m62991", "m62992", "m62993"]),
  ("circulatory", ["m62990", "m62992"]),
  ("cardiovascular", ["m62990", "m62992"]),
  ("heart", ["m62992"]),
  ("cardiac", ["m62992"]),
  ("blood", ["m62991", "m62993"]),
  ("blood vessel", ["m62992"]),
  ("artery", ["m62992"]),
  ("vein", ["m62992"]),
  ("capillary", ["m62992"]),
  ("red blood cell", ["m62991"]),
  ("white blood cell", ["m62991"]),
  ("platelet", ["m62991"]),
  ("plasma", ["m62991"]),
  ("blood pressure", ["m62993"]),
  ("pulse", ["m62993"]),
  ("systole", ["m62992"]),
  ("diastole", ["m62992"]),
  ("atrium", ["m62992"]),
  ("ventricle", ["m62992"]),
  ("osmoregulation", ["m63000", "m63004"]),
  ("excretion", ["m63002"]),
  ("excretory system", ["m63002"]),
  ("kidney", ["m63001"]),
  ("kidneys", ["m63001"]),
  ("nephron", ["m63001"]),
  ("glomerulus", ["m63001"]),
  ("filtration", ["m63001"]),
  ("reabsorption", ["m63001"]),
  ("secretion", ["m63001"]),
  ("urine", ["m63001"]),
  ("urinary system", ["m63001"]),
  ("bladder", ["m63001"]),
  ("urea", ["m63003"]),
  ("uric acid", ["m63003"]),
  ("ammonia", ["m63003"]),
  ("nitrogenous waste", ["m63003"]),
  ("antidiuretic hormone", ["m63004"]),
  ("adh", ["m63004"]),
  ("aldosterone", ["m63004"]),
  ("immune system", ["m63006", "m63007", "m63008", "m63009"]),
  ("immune", ["m63006", "m63007"]),
  ("immunity", ["m63006", "m63007"]),
  ("innate immunity", ["m63006"]),
  ("adaptive immunity", ["m63007"]),
  ("antigen", ["m63007"]),
  ("antibody", ["m63008"]),
  ("antibodies", ["m63008"]),
  ("lymphocyte", ["m63007"]),
  ("t cell", ["m63007"]),
  ("b cell", ["m63007", "m63008"]),
  ("helper t cell", ["m63007"]),
  ("cytotoxic t cell", ["m63007"]),
  ("memory cell", ["m63007"]),
  ("mhc", ["m63007"]),
  ("inflammation", ["m63006"]),
  ("fever", ["m63006"]),
  ("phagocyte", ["m63006"]),
  ("macrophage", ["m63006"]),
  ("neutrophil", ["m63006"]),
  ("natural killer cell", ["m63006"]),
  ("complement", ["m63006"]),
  ("interferon", ["m63006"]),
  ("allergy", ["m63009"]),
  ("autoimmune", ["m63009"]),
  ("autoimmune disease", ["m63009"]),
  ("immunodeficiency", ["m63009"]),
  ("reproduction", ["m63011", "m63013", "m63014"]),
  ("reproductive", ["m63011", "m63013", "m63014"]),
  ("reproductive system", ["m63013", "m63014", "m63018"]),
  ("fertilization", ["m63012", "m63016"]),
  ("internal fertilization", ["m63012"]),
  ("external fertilization", ["m63012"]),
  ("gametogenesis", ["m63013"]),
  ("spermatogenesis", ["m63013"]),
  ("oogenesis", ["m63013"]),
  ("sperm", ["m63013"]),
  ("egg", ["m63013"]),
  ("ovum", ["m63013"]),
  ("testis", ["m63013"]),
  ("ovary", ["m63013"]),
  ("uterus", ["m63013"]),
  ("menstrual cycle", ["m63014"]),
  ("ovulation", ["m63014"]),
  ("pregnancy", ["m63018"]),
  ("embryo", ["m63016", "m63043"]),
  ("embryonic development", ["m63016"]),
  ("cleavage", ["m63016"]),
  ("blastula", ["m63016"]),
  ("gastrula", ["m63016"]),
  ("gastrulation", ["m63016"]),
  ("organogenesis", ["m63043"]),
  ("germ layer", ["m63043"]),
  ("ectoderm", ["m63043"]),
  ("mesoderm", ["m63043"]),
  ("endoderm", ["m63043"]),
  ("placenta", ["m63018"]),
  ("fetus", ["m63018"]),
  ("labor", ["m63018"]),
  ("birth", ["m63018"]),
  ("ecology", ["m63021", "m63033", "m63036"]),
  ("biosphere", ["m63021"]),
  ("biogeography", ["m63023"]),
  ("biome", ["m63024", "m63025"]),
  ("biomes", ["m63024", "m63025"]),
  ("terrestrial biome", ["m63024"]),
  ("tropical rainforest", ["m63024"]),
  ("savanna", ["m63024"]),
  ("desert", ["m63024"]),
  ("chaparral", ["m63024"]),
  ("temperate grassland", ["m63024"]),
  ("temperate forest", ["m63024"]),
  ("boreal forest", ["m63024"]),
  ("taiga", ["m63024"]),
  ("tundra", ["m63024"]),
  ("aquatic biome", ["m63025"]),
  ("freshwater", ["m63025"]),
  ("marine", ["m63025"]),
  ("estuary", ["m63025"]),
  ("coral reef", ["m63025"]),
  ("climate", ["m63026"]),
  ("climate change", ["m63026"]),
  ("global warming", ["m63026"]),
  ("greenhouse effect", ["m63026"]),
  ("greenhouse gas", ["m63026"]),
  ("population", ["m63028", "m63030", "m63031"]),
  ("population ecology", ["m63028"]),
  ("demography", ["m63028"]),
  ("population growth", ["m63032"]),
  ("exponential growth", ["m63030"]),
  ("logistic growth", ["m63030"]),
  ("carrying capacity", ["m63030"]),
  ("density dependent", ["m63031"]),
  ("density independent", ["m63031"]),
  ("life history", ["m63029"]),
  ("survivorship", ["m63028"]),
  ("age structure", ["m63028"]),
  ("human population", ["m63032"]),
  ("community", ["m63033"]),
  ("community ecology", ["m63033"]),
  ("species interaction", ["m63033"]),
  ("competition", ["m63033"]),
  ("predation", ["m63033"]),
  ("predator", ["m63033"]),
  ("prey", ["m63033"]),
  ("herbivory", ["m63033"]),
  ("symbiosis", ["m63033"]),
  ("mutualism", ["m63033"]),
  ("commensalism", ["m63033"]),
  ("parasitism", ["m63033"]),
  ("ecological succession", ["m63033"]),
  ("primary succession", ["m63033"]),
  ("secondary succession", ["m63033"]),
  ("keystone species", ["m63033"]),
  ("behavior", ["m63034"]),
  ("animal behavior", ["m63034"]),
  ("innate behavior", ["m63034"]),
  ("learned behavior", ["m63034"]),
  ("ecosystem", ["m63036", "m63037", "m63040"]),
  ("ecosystems", ["m63036", "m63037"]),
  ("energy flow", ["m63037"]),
  ("food chain", ["m63037"]),
  ("food web", ["m63037"]),
  ("trophic level", ["m63037"]),
  ("producer", ["m63037"]),
  ("consumer", ["m63037"]),
  ("primary consumer", ["m63037"]),
  ("secondary consumer", ["m63037"]),
  ("tertiary consumer", ["m63037"]),
  ("decomposer", ["m63037"]),
  ("detritivore", ["m63037"]),
  ("gross primary productivity", ["m63037"]),
  ("net primary productivity", ["m63037"]),
  ("biomass", ["m63037"]),
  ("energy pyramid", ["m63037"]),
  ("biogeochemical cycle", ["m63040"]),
  ("carbon cycle", ["m63040"]),
  ("nitrogen cycle", ["m63040"]),
  ("phosphorus cycle", ["m63040"]),
  ("water cycle", ["m63040"]),
  ("hydrologic cycle", ["m63040"]),
  ("biodiversity", ["m63048", "m63049", "m63051"]),
  ("conservation", ["m63051"]),
  ("conservation biology", ["m63051"]),
  ("extinction", ["m63048"]),
  ("mass extinction", ["m63048"]),
  ("endangered species", ["m63048"]),
  ("threatened species", ["m63048"]),
  ("habitat loss", ["m63050"]),
  ("habitat fragmentation", ["m63050"]),
  ("deforestation", ["m63050"]),
  ("invasive species", ["m63050"]),
  ("overexploitation", ["m63050"]),
  ("pollution", ["m63050"]),
  ("ecosystem services", ["m63049"]),
  ("genetic diversity", ["m63049"]),
  ("species diversity", ["m63049"]),
  ("ecosystem diversity", ["m63049"]),
  ("preserve", ["m63051"]),
  ("wildlife corridor", ["m63051"]),
  ("sustainable", ["m63051"]),
  ("sustainability", ["m63051"])
]


/-- get_module_url from openstax_modules.py: the chapter-slug table first, then a
slug generated from the title (or the chapter name for introduction pages). -/
def isSlugChar (c : Char) : Bool := ('a' ≤ c && c ≤ 'z') || c.isDigit

/-- Collapse adjacent dashes, so that a run of non-slug characters becomes one dash,
exactly as the regex replacement of runs in get_module_url does. -/
def squeezeDash : List Char → List Char
  | [] => []
  | [c] => [c]
  | a :: b :: rest =>
    if a == '-' && b == '-' then squeezeDash (b :: rest) else a :: squeezeDash (b :: rest)

/-- Python str.strip with a dash argument: drop dashes from both ends. -/
def stripDash (l : List Char) : List Char :=
  ((l.dropWhile (fun c => c == '-')).reverse.dropWhile (fun c => c == '-')).reverse

/-- The slug generation of get_module_url: non [a-z0-9] runs become one dash, then
dashes are stripped from the ends. -/
def slugify (l : List Char) : List Char :=
  stripDash (squeezeDash (l.map (fun c => if isSlugChar c then c else '-')))

/-- get_module_url from openstax_modules.py. -/
def get_module_url (module_id : String) : String :=
  match List.lookup module_id MODULE_TO_CHAPTER_SLUG with
  | some slug => OPENSTAX_BASE_URL ++ "/" ++ slug
  | none =>
    match List.lookup module_id MODULE_INDEX with
    | none => OPENSTAX_BASE_URL ++ "/1-introduction"
    | some info =>
      let slug := asString (slugify (pyLower info.title.data))
      let slug := if info.title == "Introduction"
        then asString (slugify (pyLower info.chapter.data)) else slug
      OPENSTAX_BASE_URL ++ "/" ++ slug

/-- One keyword test of search_modules: a multi-word keyword matches by substring
containment, a single-word keyword by a word-boundary regex search. -/
def keywordMatchesTopic (keyword : String) (topicLower : List Char) : Bool :=
  if keyword.data.contains ' ' then substringOf keyword.data topicLower
  else wholeWordMatch keyword.data topicLower

/-- The keyword-table entries whose keyword matches the lowered topic, in table order. -/
def matchedKeywordEntries (table : List (String × List String)) (topicLower : List Char) :
    List (String × List String) :=
  table.filter (fun kv => keywordMatchesTopic kv.1 topicLower)

/-- The matched ids of the keyword pass of search_modules, as the insertion-ordered
duplicate-free element list of the Python set matched_ids. -/
def keywordMatchedIds (topicLower : List Char) : List String :=
  insertionDedup ((matchedKeywordEntries KEYWORD_TO_MODULES topicLower).foldr
    (fun kv acc => kv.2 ++ acc) [])

/-- The title/chapter word-overlap fallback of search_modules, again as the
insertion-ordered element list of the set. -/
def titleFallbackIds (topicLower : List Char) : List String :=
  let topicWords := splitWords topicLower
  insertionDedup ((MODULE_INDEX.filter (fun kv =>
    wordsIntersect topicWords (splitWords (pyLower kv.2.title.data)) ||
    wordsIntersect topicWords (splitWords (pyLower kv.2.chapter.data)))).map (fun kv => kv.1))

/-- The content of the matched_ids set of search_modules just before it is
materialised by list(matched_ids), as its insertion-ordered element list. -/
def matchedIdsList (topic : String) : List String :=
  if (keywordMatchedIds (pyLower topic.data)).isEmpty then titleFallbackIds (pyLower topic.data)
  else keywordMatchedIds (pyLower topic.data)

/-- A search result entry of search_modules: id, title, unit, chapter and url. -/
structure ModuleEntry where
  id : String
  title : String
  unit : String
  chapter : String
  url : String
deriving DecidableEq

/-- The per-id step of the result loop of search_modules: skip unknown ids, skip
Introduction modules unless the topic itself mentions introduction. -/
def searchEntryFor (topicLower : List Char) (mid : String) : Option ModuleEntry :=
  match List.lookup mid MODULE_INDEX with
  | none => none
  | some info =>
    if info.title == "Introduction" && !(substringOf "introduction".data topicLower) then none
    else some ⟨mid, info.title, info.unit, info.chapter, get_module_url mid⟩

/-- search_modules from openstax_modules.py. The enum argument models the
unspecified iteration order of list(matched_ids); admissible enumerations are the
permutations of the insertion-ordered element list. -/
def search_modules (enum : List String → List String) (topic : String) (max_results : Nat) :
    List ModuleEntry :=
  (((enum (matchedIdsList topic)).take max_results).filterMap
    (searchEntryFor (pyLower topic.data))).take max_results

/-- A source citation: url, title, provider. -/
structure Citation where
  url : String
  title : String
  provider : String
deriving DecidableEq

/-- get_source_citation from openstax_modules.py: one citation for a whole id list,
built from the first id, with a book-level default. -/
def get_source_citation (module_ids : List String) : Citation :=
  match module_ids with
  | [] => ⟨OPENSTAX_BASE_URL, "OpenStax Biology for AP Courses", "OpenStax"⟩
  | mid :: _ =>
    match List.lookup mid MODULE_INDEX with
    | none => ⟨OPENSTAX_BASE_URL, "OpenStax Biology for AP Courses", "OpenStax"⟩
    | some info =>
      ⟨get_module_url mid, info.chapter ++ ": " ++ info.title, "OpenStax Biology for AP Courses"⟩

/-- The module cache of openstax_content.py: key to (content, cached_at). Python
float timestamps are modelled as integers; only comparisons are used. -/
def MODULE_CACHE_TTL : Int := 3600

/-- The module cache dictionary. -/
abbrev ModuleCache := List (String × String × Int)

/-- Dictionary read. -/
def cacheLookup (cache : ModuleCache) (key : String) : Option (String × Int) :=
  List.lookup key cache

/-- Dictionary write: replace an existing binding in place, append a new one. -/
def cacheInsert (cache : ModuleCache) (key : String) (v : String × Int) : ModuleCache :=
  match cache with
  | [] => [(key, v)]
  | (k, w) :: rest => if k == key then (key, v) :: rest else (k, w) :: cacheInsert rest key v

/-- The cache key built by fetch_module_content_cached, with Python bool formatting. -/
def cacheKey (module_id : String) (parse : Bool) : String :=
  module_id ++ "_" ++ (if parse then "True" else "False")

/-- The miss path of fetch_module_content_cached: return the fresh fetch outcome
and cache it only when it is truthy (neither None nor the empty string). -/
def cacheRefetch (fetched : Option String) (key : String) (now : Int) (cache : ModuleCache) :
    Option String × ModuleCache :=
  match fetched with
  | some content =>
    if content == "" then (some content, cache)
    else (some content, cacheInsert cache key (content, now))
  | none => (none, cache)

/-- fetch_module_content_cached from openstax_content.py. The fetched argument is
the outcome fetch_module_content would produce at this instant; now is the clock
reading. Returns the produced value and the updated cache. -/
def fetch_module_content_cached (fetched : Option String) (module_id : String) (parse : Bool)
    (now : Int) (cache : ModuleCache) : Option String × ModuleCache :=
  match cacheLookup cache (cacheKey module_id parse) with
  | some (content, cached_at) =>
    if now - cached_at < MODULE_CACHE_TTL then (some content, cache)
    else cacheRefetch fetched (cacheKey module_id parse) now cache
  | none => cacheRefetch fetched (cacheKey module_id parse) now cache
/-- An element tree as produced by the stdlib XML parser: tag (with namespace as a
braced prefix, as ElementTree renders it), the type attribute read by the note
branch, the text before the first child, the child elements, and the tail text
following this element inside its parent. -/
inductive Xml where
  | elem (tag : String) (typeAttr : Option String) (text : Option String)
      (children : List Xml) (tail : Option String)

/-- Tag projection. -/
def tagOf : Xml → String
  | .elem t _ _ _ _ => t

/-- Type-attribute projection. -/
def typeAttrOf : Xml → Option String
  | .elem _ a _ _ _ => a

/-- Text projection. -/
def textOf : Xml → Option String
  | .elem _ _ tx _ _ => tx

/-- Children projection. -/
def childrenOf : Xml → List Xml
  | .elem _ _ _ cs _ => cs

/-- Tail projection. -/
def tailOf : Xml → Option String
  | .elem _ _ _ _ tl => tl

/-- A truthy optional string contributes itself, None and the empty string nothing. -/
def optTruthy : Option String → List String
  | some s => if s == "" then [] else [s]
  | none => []

mutual

/-- The recursive text extraction of openstax_content.py: the element text, then for
each child its extracted text when truthy followed by its truthy tail, joined by
single spaces. -/
def extractText : Xml → String
  | .elem _ _ text children _ =>
    String.intercalate " " (optTruthy text ++ extractPieces children)

/-- The pieces contributed by a child list to the text extraction. -/
def extractPieces : List Xml → List String
  | [] => []
  | c :: cs =>
    (if extractText c == "" then [] else [extractText c]) ++ optTruthy (tailOf c) ++ extractPieces cs

end

mutual

/-- Document-order element iteration including the element itself, the semantics of
the iter method used by the main loop of parse_cnxml_to_text. -/
def iterElems : Xml → List Xml
  | .elem t a tx cs tl => .elem t a tx cs tl :: iterForest cs

/-- Document-order iteration of a child list. -/
def iterForest : List Xml → List Xml
  | [] => []
  | c :: cs => iterElems c ++ iterForest cs

end

/-- The right curly brace character, written by code point to keep literal braces
out of the source text. -/
def rbraceChar : Char := Char.ofNat 125

/-- The local part of a namespaced tag: everything after the last right brace, the
semantics of the tag split in parse_cnxml_to_text. -/
def localName (tag : String) : String :=
  asString ((tag.data.reverse.takeWhile (fun c => c != rbraceChar)).reverse)

/-- The fully qualified cnxml title tag searched for with the cnxml namespace map. -/
def CNXML_TITLE_TAG : String := "\x7bhttp://cnx.rice.edu/cnxml\x7dtitle"

/-- The parts contributed by one element in the main loop of parse_cnxml_to_text. -/
def cnxmlPartsFor (e : Xml) : List String :=
  let tag := localName (tagOf e)
  if tag == "para" then
    let t := pyStrip (extractText e).data
    if t.isEmpty then [] else [asString t]
  else if tag == "section" then
    match (childrenOf e).find? (fun c => tagOf c == CNXML_TITLE_TAG) with
    | some st =>
      match textOf st with
      | some s => if s == "" then [] else ["\n## " ++ s ++ "\n"]
      | none => []
    | none => []
  else if tag == "note" then
    let nt := match typeAttrOf e with
      | some t => t
      | none => "note"
    let t := pyStrip (extractText e).data
    if t.isEmpty then [] else ["\n[" ++ asString (pyUpper nt.data) ++ "]: " ++ asString t ++ "\n"]
  else if tag == "example" then
    let t := pyStrip (extractText e).data
    if t.isEmpty then [] else ["\n[EXAMPLE]: " ++ asString t ++ "\n"]
  else if tag == "item" then
    let t := pyStrip (extractText e).data
    if t.isEmpty then [] else ["  • " ++ asString t]
  else if tag == "definition" then
    let t := pyStrip (extractText e).data
    if t.isEmpty then [] else ["  Definition: " ++ asString t]
  else []

/-- Worker for collapseNewlines, structurally recursive on length-bounded fuel. -/
def collapseNewlinesFuel : Nat → List Char → List Char
  | 0, l => l
  | _ + 1, [] => []
  | fuel + 1, c :: cs =>
    if c == '\n' then
      let n := (cs.takeWhile (fun d => d == '\n')).length + 1
      (if 3 ≤ n then ['\n', '\n'] else List.replicate n '\n') ++ collapseNewlinesFuel fuel (cs.drop (n - 1))
    else c :: collapseNewlinesFuel fuel cs

/-- Collapse every maximal run of three or more newlines to exactly two, the first
regex cleanup of parse_cnxml_to_text; the fuel is one per consumed character and
never runs out at the given bound. -/
def collapseNewlines (l : List Char) : List Char := collapseNewlinesFuel l.length l

/-- Worker for collapseSpaces, structurally recursive on length-bounded fuel. -/
def collapseSpacesFuel : Nat → List Char → List Char
  | 0, l => l
  | _ + 1, [] => []
  | fuel + 1, c :: cs =>
    if c == ' ' then
      let n := (cs.takeWhile (fun d => d == ' ')).length + 1
      ' ' :: collapseSpacesFuel fuel (cs.drop (n - 1))
    else c :: collapseSpacesFuel fuel cs

/-- Collapse every maximal run of spaces to one space, the second regex cleanup of
parse_cnxml_to_text; runs of two or more shrink to one and a lone space stays. -/
def collapseSpaces (l : List Char) : List Char := collapseSpacesFuel l.length l

/-- Worker for stripTags, structurally recursive on length-bounded fuel. -/
def stripTagsFuel : Nat → List Char → List Char
  | 0, l => l
  | _ + 1, [] => []
  | fuel + 1, c :: cs =>
    let n := (cs.takeWhile (fun d => d != '>')).length
    if c == '<' && decide (1 ≤ n) && decide (n < cs.length) then
      ' ' :: stripTagsFuel fuel (cs.drop (n + 1))
    else c :: stripTagsFuel fuel cs

/-- The tag-stripping regex fallback of parse_cnxml_to_text: each leftmost match of
a left angle bracket, one or more non-closing characters and a right angle bracket
is replaced by one space; the fuel is one per consumed character and never runs
out at the given bound. -/
def stripTags (l : List Char) : List Char := stripTagsFuel l.length l

/-- The input contains a character that survives tag stripping and is not
whitespace: such a character is outside every well-delimited tag. -/
def containsNonTagChar (s : String) : Bool :=
  (stripTags s.data).any (fun c => !pyIsSpace c)

/-- parse_cnxml_to_text from openstax_content.py. The stdlib XML parse is an
external collaborator; its outcome on the raw input is passed as the parsed
argument, with none standing for an ET.ParseError caught by the except branch. -/
def parse_cnxml_to_text (parsed : Option Xml) (raw : String) : String :=
  match parsed with
  | some root =>
    let title := match (iterForest (childrenOf root)).find? (fun e => tagOf e == CNXML_TITLE_TAG) with
      | some te =>
        match textOf te with
        | some s => s
        | none => ""
      | none => ""
    let headParts := if title == "" then [] else ["# " ++ title ++ "\n"]
    let parts := headParts ++ (iterElems root).foldr (fun e acc => cnxmlPartsFor e ++ acc) []
    asString (pyStrip (collapseSpaces (collapseNewlines (String.intercalate "\n" parts).data)))
  | none => asString (pyStrip (stripTags raw.data))
/-- Outcome of the GCS tier of fetch_module_from_gcs: bucket not configured, blob
present with its text, blob absent, or any exception caught by the except branch. -/
inductive GcsOutcome where
  | notConfigured
  | found (content : String)
  | absent
  | failed (reason : String)

/-- fetch_module_from_gcs from openstax_content.py: every non-success outcome is
collapsed to None. -/
def fetch_module_from_gcs : GcsOutcome → Option String
  | .notConfigured => none
  | .found content => some content
  | .absent => none
  | .failed _ => none

/-- Outcome of the GitHub tier of fetch_module_from_github: a successful read, an
HTTP error status such as 404, a network-level URL error, or any other exception. -/
inductive GithubOutcome where
  | ok (content : String)
  | httpError (code : Nat)
  | urlError (reason : String)
  | otherError (reason : String)

/-- fetch_module_from_github from openstax_content.py: every error branch logs and
returns None. -/
def fetch_module_from_github : GithubOutcome → Option String
  | .ok content => some content
  | .httpError _ => none
  | .urlError _ => none
  | .otherError _ => none

/-- fetch_module_content from openstax_content.py: GCS first, then GitHub, then an
optional parse through parse_cnxml_to_text. The parseOf argument carries the
external XML-parser outcome for any fetched content. -/
def fetch_module_content (parseOf : String → Option Xml) (gcs : GcsOutcome)
    (github : GithubOutcome) (parse : Bool) : Option String :=
  match fetch_module_from_gcs gcs with
  | some content =>
    if parse then some (parse_cnxml_to_text (parseOf content) content) else some content
  | none =>
    match fetch_module_from_github github with
    | some content =>
      if parse then some (parse_cnxml_to_text (parseOf content) content) else some content
    | none => none

/-- Outcome of the Gemini collaborator call inside llm_match_topic_to_chapters:
any exception along the way, a JSON payload that is not a list, or a JSON array of
slugs. -/
inductive LlmResponse where
  | raises
  | nonList
  | arr (slugs : List String)

/-- The matcher written _llm_match_topic_to_chapters in openstax_content.py: a
well-formed array is truncated and returned as is; every failure and every
malformed payload falls through to the fixed default chapter. -/
def llm_match_topic_to_chapters (resp : LlmResponse) (max_chapters : Nat) : List String :=
  match resp with
  | .raises => ["1-1-the-science-of-biology"]
  | .nonList => ["1-1-the-science-of-biology"]
  | .arr slugs => slugs.take max_chapters

/-- The resolution result record returned by fetch_modules_for_topic: exactly the
four keys of the Python dict. -/
structure TopicResult where
  topic : String
  matched_modules : List ModuleEntry
  combined_content : String
  sources : List Citation
deriving DecidableEq

/-- The chapter-fallback branch of fetch_modules_for_topic: the first chapter slug
returned by the collaborator is looked up in the chapter-to-modules bridging table
(imported from the chapter module), its module ids are truncated and every id
found in MODULE_INDEX becomes an entry; an unknown slug or id contributes nothing. -/
def llmFallbackModules (llm : LlmResponse) (chapterToModules : List (String × List String))
    (max_modules : Nat) : List ModuleEntry :=
  match llm_match_topic_to_chapters llm 1 with
  | [] => []
  | c0 :: _ =>
    match List.lookup c0 chapterToModules with
    | none => []
    | some mids =>
      (mids.take max_modules).filterMap (fun mid =>
        (List.lookup mid MODULE_INDEX).map (fun info =>
          ModuleEntry.mk mid info.title info.unit info.chapter (get_module_url mid)))

/-- The matched_modules value of fetch_modules_for_topic after both matching
passes: keyword search first, the collaborator fallback only when it is empty. -/
def matchedModules (enum : List String → List String) (llm : LlmResponse)
    (chapterToModules : List (String × List String)) (topic : String) (max_modules : Nat) :
    List ModuleEntry :=
  if (search_modules enum topic max_modules).isEmpty then
    llmFallbackModules llm chapterToModules max_modules
  else search_modules enum topic max_modules

/-- The contents list of fetch_modules_for_topic: per-module fetch outcomes in
module id order, keeping only truthy content. The futures dict of the parallel
branch preserves insertion order and all results are gathered, so both the
single-module and the parallel branch collect contents in this order. -/
def topicContents (fetchRes : String → Option String) (module_ids : List String) :
    List (String × String) :=
  module_ids.filterMap (fun mid =>
    match fetchRes mid with
    | some c => if c == "" then none else some (mid, c)
    | none => none)

/-- The combined_parts list of fetch_modules_for_topic: a heading, source line and
body per fetched module found in the catalog. -/
def combinedParts (contents : List (String × String)) : List String :=
  contents.filterMap (fun mc =>
    (List.lookup mc.1 MODULE_INDEX).map (fun info =>
      "## " ++ info.title ++ "\nSource: " ++ get_module_url mc.1 ++ "\n\n" ++ mc.2))

/-- fetch_modules_for_topic from openstax_content.py. The enum argument models the
set iteration order inside search_modules; llm the collaborator outcome;
chapterToModules the CHAPTER_TO_MODULES table imported from the chapter module
that is not part of this tree; fetchRes the per-module outcome of
fetch_module_content_cached at call time, deterministic within the one call as the
cache makes repeated fetches of one id agree. -/
def fetch_modules_for_topic (enum : List String → List String) (llm : LlmResponse)
    (chapterToModules : List (String × List String)) (fetchRes : String → Option String)
    (topic : String) (max_modules : Nat) : TopicResult :=
  if (matchedModules enum llm chapterToModules topic max_modules).isEmpty then
    ⟨topic, [], "", []⟩
  else if (topicContents fetchRes
      ((matchedModules enum llm chapterToModules topic max_modules).map (fun e => e.id))).isEmpty then
    ⟨topic, matchedModules enum llm chapterToModules topic max_modules, "", []⟩
  else
    ⟨topic, matchedModules enum llm chapterToModules topic max_modules,
      String.intercalate "\n\n===\n\n" (combinedParts (topicContents fetchRes
        ((matchedModules enum llm chapterToModules topic max_modules).map (fun e => e.id)))),
      [get_source_citation
        ((matchedModules enum llm chapterToModules topic max_modules).map (fun e => e.id))]⟩

/-- A concrete per-module fetch stub used in the concrete instances below: the two
later ATP modules produce text, the first produces nothing. -/
def atpFetchStub : String → Option String :=
  fun mid =>
    if mid == "m62763" then some "Text about energy and metabolism."
    else if mid == "m62786" then some "Text about energy in living systems."
    else none


/-- Membership in the dedup accumulator: an element is kept exactly when it occurs
in the remainder and was not seen before. -/
theorem mem_insertionDedupAux (l : List String) :
    ∀ (seen : List String) (a : String),
      a ∈ insertionDedupAux seen l ↔ a ∈ l ∧ a ∉ seen := by
  induction l with
  | nil => intro seen a; simp [insertionDedupAux]
  | cons x xs ih =>
    intro seen a
    simp only [insertionDedupAux]
    by_cases hx : x ∈ seen
    · rw [if_pos hx, ih]
      constructor
      · exact fun h => ⟨List.mem_cons_of_mem _ h.1, h.2⟩
      · rintro ⟨h, hs⟩
        rcases List.mem_cons.mp h with rfl | ha
        · exact absurd hx hs
        · exact ⟨ha, hs⟩
    · rw [if_neg hx]
      constructor
      · intro h
        rcases List.mem_cons.mp h with rfl | ha
        · exact ⟨List.mem_cons_self _ _, hx⟩
        · rcases (ih (x :: seen) a).mp ha with ⟨h1, h2⟩
          exact ⟨List.mem_cons_of_mem _ h1,
            fun hmem => h2 (List.mem_cons_of_mem _ hmem)⟩
      · rintro ⟨h, hs⟩
        rcases List.mem_cons.mp h with rfl | ha
        · exact List.mem_cons_self _ _
        · by_cases hax : a = x
          · exact hax ▸ List.mem_cons_self _ _
          · refine List.mem_cons_of_mem _ ((ih (x :: seen) a).mpr ⟨ha, ?_⟩)
            intro hmem
            rcases List.mem_cons.mp hmem with h' | h'
            · exact hax h'
            · exact hs h'

/-- Membership is preserved by insertion-ordered deduplication. -/
theorem mem_insertionDedup (l : List String) (a : String) :
    a ∈ insertionDedup l ↔ a ∈ l := by
  simp [insertionDedup, mem_insertionDedupAux]

/-- The dedup accumulator never repeats an element. -/
theorem nodup_insertionDedupAux (l : List String) :
    ∀ (seen : List String), (insertionDedupAux seen l).Nodup := by
  induction l with
  | nil => intro seen; simp [insertionDedupAux]
  | cons x xs ih =>
    intro seen
    simp only [insertionDedupAux]
    by_cases hx : x ∈ seen
    · rw [if_pos hx]; exact ih seen
    · rw [if_neg hx]
      refine List.Nodup.cons ?_ (ih (x :: seen))
      intro hmem
      exact ((mem_insertionDedupAux xs (x :: seen) x).mp hmem).2 (List.mem_cons_self _ _)

/-- Insertion-ordered deduplication yields a duplicate-free list. -/
theorem nodup_insertionDedup (l : List String) : (insertionDedup l).Nodup :=
  nodup_insertionDedupAux l []

/-- Membership in the keyword union: an id is collected exactly when some matched
entry maps to it. -/
theorem mem_foldr_append (entries : List (String × List String)) (a : String) :
    a ∈ entries.foldr (fun kv acc => kv.2 ++ acc) [] ↔ ∃ kv ∈ entries, a ∈ kv.2 := by
  induction entries with
  | nil => simp
  | cons e es ih => simp [List.mem_append, ih]

/-- A whole-word regex search fails when every occurrence is internal to a larger
word. -/
theorem wholeWordMatch_eq_false_of_onlyInside (k topic : List Char)
    (h : onlyInsideWords k topic = true) : wholeWordMatch k topic = false := by
  rw [onlyInsideWords, List.all_eq_true] at h
  rw [wholeWordMatch]
  by_contra hne
  rw [Bool.not_eq_false, List.any_eq_true] at hne
  obtain ⟨i, hi, hmatch⟩ := hne
  have hhi := h i hi
  rw [Bool.and_eq_true] at hmatch
  rw [hmatch.1, hmatch.2] at hhi
  simp at hhi

/-- A character that fails the predicate survives dropWhile. -/
theorem mem_dropWhile_of_mem (p : Char → Bool) (l : List Char) (c : Char)
    (hc : c ∈ l) (hnc : p c = false) : c ∈ l.dropWhile p := by
  induction l with
  | nil => cases hc
  | cons d ds ih =>
    rw [List.dropWhile_cons]
    by_cases hd : p d = true
    · rw [if_pos hd]
      rcases List.mem_cons.mp hc with rfl | h
      · rw [hd] at hnc; cases hnc
      · exact ih h
    · rw [if_neg hd]
      exact hc

/-- Python strip leaves something whenever some character is not whitespace. -/
theorem pyStrip_ne_nil (l : List Char) (c : Char) (hc : c ∈ l) (hs : pyIsSpace c = false) :
    pyStrip l ≠ [] := by
  intro hnil
  rw [pyStrip] at hnil
  have h1 : (l.dropWhile pyIsSpace).reverse.dropWhile pyIsSpace = [] := by
    simpa using congrArg List.reverse hnil
  have h2 := List.dropWhile_eq_nil_iff.mp h1
  have h4 : c ∈ l.dropWhile pyIsSpace := mem_dropWhile_of_mem pyIsSpace l c hc hs
  have h5 := h2 c (List.mem_reverse.mpr h4)
  rw [h5] at hs
  cases hs

/-- Membership after a dictionary write: the new binding or an old one. -/
theorem mem_cacheInsert (cache : ModuleCache) (key : String) (v : String × Int)
    (e : String × String × Int) (he : e ∈ cacheInsert cache key v) :
    e = (key, v) ∨ e ∈ cache := by
  induction cache with
  | nil => simpa [cacheInsert] using he
  | cons kv rest ih =>
    rcases kv with ⟨k1, w1⟩
    rw [cacheInsert] at he
    by_cases hk : (k1 == key) = true
    · rw [if_pos hk] at he
      rcases List.mem_cons.mp he with h | h
      · exact Or.inl h
      · exact Or.inr (List.mem_cons_of_mem _ h)
    · rw [if_neg hk] at he
      rcases List.mem_cons.mp he with h | h
      · exact Or.inr (h ▸ List.mem_cons_self _ _)
      · rcases ih h with h' | h'
        · exact Or.inl h'
        · exact Or.inr (List.mem_cons_of_mem _ h')

/-- Concrete evaluation: the keyword pass for the topic atp matches exactly the atp
keyword entry, in its insertion order. -/
theorem matched_ids_atp : matchedIdsList "atp" = ["m62768", "m62763", "m62786"] := by decide

/-- Concrete evaluation: the keyword pass for the topic metabolism matches exactly
the metabolism keyword entry, whose third id is an introduction module. -/
theorem matched_ids_metabolism :
    matchedIdsList "metabolism" = ["m62763", "m62778", "m62761"] := by decide

/-- Concrete evaluation: the out-of-corpus topic quantum entanglement matches no
keyword and no title or chapter word, so the set is empty. -/
theorem matched_ids_qe : matchedIdsList "quantum entanglement" = [] := by decide

/-- Derived evaluation: searching atp with the identity enumeration returns the
three atp modules in insertion order. -/
theorem search_atp_ids :
    (search_modules id "atp" 3).map (fun e => e.id) = ["m62768", "m62763", "m62786"] := by
  simp only [search_modules]
  rw [matched_ids_atp]
  decide

/-- Derived evaluation: searching metabolism with the identity enumeration drops
the introduction module m62761 and keeps the other two ids. -/
theorem search_metabolism_ids :
    (search_modules id "metabolism" 3).map (fun e => e.id) = ["m62763", "m62778"] := by
  simp only [search_modules]
  rw [matched_ids_metabolism]
  decide

/-- Derived evaluation: searching metabolism with the reversed enumeration, an
admissible iteration order of the Python set, returns the two surviving ids in
reversed order. -/
theorem search_metabolism_rev_ids :
    (search_modules List.reverse "metabolism" 3).map (fun e => e.id) = ["m62778", "m62763"] := by
  simp only [search_modules]
  rw [matched_ids_metabolism]
  decide

/-- Derived evaluation: the out-of-corpus topic produces no search results. -/
theorem search_qe_empty : search_modules id "quantum entanglement" 3 = [] := by
  simp only [search_modules]
  rw [matched_ids_qe]
  decide

/-- Derived evaluation: the full resolution of the out-of-corpus topic with an
empty collaborator answer is exactly the four-field record with empty content. -/
theorem fetch_qe_eval :
    fetch_modules_for_topic id (LlmResponse.arr []) [] (fun _ => none) "quantum entanglement" 3
      = ⟨"quantum entanglement", [], "", []⟩ := by
  simp only [fetch_modules_for_topic, matchedModules, search_modules]
  rw [matched_ids_qe]
  decide

/-- A successful entry construction in the result loop of search_modules keeps the
looked-up id and presupposes a catalog hit. -/
theorem searchEntryFor_spec (tl : List Char) (mid : String) (e : ModuleEntry)
    (h : searchEntryFor tl mid = some e) :
    e.id = mid ∧ List.lookup mid MODULE_INDEX ≠ none := by
  rw [searchEntryFor] at h
  cases hmi : List.lookup mid MODULE_INDEX with
  | none => rw [hmi] at h; cases h
  | some info =>
    rw [hmi] at h
    dsimp only at h
    refine ⟨?_, by simp [hmi]⟩
    by_cases hc : (info.title == "Introduction" && !substringOf "introduction".data tl) = true
    · rw [if_pos hc] at h; cases h
    · rw [if_neg hc] at h
      injection h with h'
      rw [← h']

/-- Every search result comes from an id of the enumerated matched set through a
successful entry construction. -/
theorem mem_search_modules (enum : List String → List String) (topic : String) (N : Nat)
    (e : ModuleEntry) (he : e ∈ search_modules enum topic N) :
    ∃ mid, searchEntryFor (pyLower topic.data) mid = some e ∧
      mid ∈ enum (matchedIdsList topic) := by
  rw [search_modules] at he
  have he1 := (List.take_sublist _ _).subset he
  rcases List.mem_filterMap.mp he1 with ⟨mid, hmid, hf⟩
  exact ⟨mid, hf, (List.take_sublist _ _).subset hmid⟩

/-- The ids of the entries built by the result loop form a sublist of the id list
the loop walks, so relative order and freedom from duplicates are inherited. -/
theorem ids_filterMap_sublist (tl : List Char) (l : List String) :
    ((l.filterMap (searchEntryFor tl)).map (fun e => e.id)).Sublist l := by
  induction l with
  | nil => simp
  | cons x xs ih =>
    rw [List.filterMap_cons]
    cases hx : searchEntryFor tl x with
    | none => exact List.Sublist.cons x ih
    | some e =>
      rw [List.map_cons, (searchEntryFor_spec tl x e hx).1]
      exact List.Sublist.cons₂ x ih

/-- The matched id set is duplicate-free in both of its branches. -/
theorem nodup_matchedIdsList (topic : String) : (matchedIdsList topic).Nodup := by
  rw [matchedIdsList]
  split
  · exact nodup_insertionDedup _
  · exact nodup_insertionDedup _

/-- Every entry of the chapter fallback comes from a catalog hit on its id. -/
theorem mem_llmFallbackModules (llm : LlmResponse) (ctm : List (String × List String))
    (N : Nat) (e : ModuleEntry) (he : e ∈ llmFallbackModules llm ctm N) :
    ∃ mid info, List.lookup mid MODULE_INDEX = some info ∧
      e = ModuleEntry.mk mid info.title info.unit info.chapter (get_module_url mid) := by
  rw [llmFallbackModules] at he
  split at he
  · cases he
  · split at he
    · cases he
    · rcases List.mem_filterMap.mp he with ⟨mid, _, hmap⟩
      cases hmi : List.lookup mid MODULE_INDEX with
      | none => rw [hmi] at hmap; cases hmap
      | some info =>
        rw [hmi, Option.map_some'] at hmap
        injection hmap with h'
        exact ⟨mid, info, hmi, h'.symm⟩

/-- Every matched module comes from the keyword search or from the chapter
fallback, in the latter case from a catalog hit. -/
theorem mem_matchedModules (enum : List String → List String) (llm : LlmResponse)
    (ctm : List (String × List String)) (topic : String) (N : Nat) (e : ModuleEntry)
    (he : e ∈ matchedModules enum llm ctm topic N) :
    e ∈ search_modules enum topic N
    ∨ ∃ mid info, List.lookup mid MODULE_INDEX = some info ∧
        e = ModuleEntry.mk mid info.title info.unit info.chapter (get_module_url mid) := by
  rw [matchedModules] at he
  split at he
  · exact Or.inr (mem_llmFallbackModules llm ctm N e he)
  · exact Or.inl he

/-- The matched_modules field of a resolution result is empty or is the matched
module list. -/
theorem fetch_matched_cases (enum : List String → List String) (llm : LlmResponse)
    (ctm : List (String × List String)) (fetchRes : String → Option String)
    (topic : String) (N : Nat) :
    (fetch_modules_for_topic enum llm ctm fetchRes topic N).matched_modules = []
    ∨ (fetch_modules_for_topic enum llm ctm fetchRes topic N).matched_modules
        = matchedModules enum llm ctm topic N := by
  rw [fetch_modules_for_topic]
  split
  · exact Or.inl rfl
  · split
    · exact Or.inr rfl
    · exact Or.inr rfl

/-- After one cached fetch the cache is unchanged or extended by exactly the truthy
fetched value under the computed key. -/
theorem cacheRefetch_cases (f : Option String) (key : String) (now : Int)
    (cache : ModuleCache) :
    (cacheRefetch f key now cache).2 = cache
    ∨ ∃ w : String, (w == "") = false ∧ f = some w ∧
        (cacheRefetch f key now cache).2 = cacheInsert cache key (w, now) := by
  cases f with
  | none => exact Or.inl rfl
  | some w =>
    by_cases hw : (w == "") = true
    · left
      simp [cacheRefetch, hw]
    · right
      refine ⟨w, by simpa using hw, rfl, ?_⟩
      simp [cacheRefetch, hw]

/-- The cache after a cached fetch call: unchanged, or overwritten at the computed
key with the truthy fetched value. -/
theorem cache_after_fetch (f : Option String) (mid : String) (p : Bool) (now : Int)
    (cache : ModuleCache) :
    (fetch_module_content_cached f mid p now cache).2 = cache
    ∨ ∃ w : String, (w == "") = false ∧ f = some w ∧
        (fetch_module_content_cached f mid p now cache).2
          = cacheInsert cache (cacheKey mid p) (w, now) := by
  rw [fetch_module_content_cached]
  cases hl : cacheLookup cache (cacheKey mid p) with
  | none => exact cacheRefetch_cases f (cacheKey mid p) now cache
  | some vt =>
    rcases vt with ⟨v, t⟩
    dsimp only
    by_cases hlt : now - t < MODULE_CACHE_TTL
    · rw [if_pos hlt]
      exact Or.inl rfl
    · rw [if_neg hlt]
      exact cacheRefetch_cases f (cacheKey mid p) now cache

/-- C1: the resolution result of fetch_modules_for_topic either is exactly the
four-field record with empty matched modules, empty combined content and empty
sources, or has matched modules; in particular the no-coverage outcome is the
plain record, and the record type carries no further field that could hold a
not-covered marker. -/
theorem C1_amended_no_marker (enum : List String → List String) (llm : LlmResponse)
    (ctm : List (String × List String)) (fetchRes : String → Option String)
    (topic : String) (N : Nat) :
    fetch_modules_for_topic enum llm ctm fetchRes topic N = ⟨topic, [], "", []⟩
    ∨ (fetch_modules_for_topic enum llm ctm fetchRes topic N).matched_modules ≠ [] := by
  rw [fetch_modules_for_topic]
  split
  · exact Or.inl rfl
  · next h =>
    right
    split
    · intro heq
      have heq' : matchedModules enum llm ctm topic N = [] := heq
      exact h (by rw [heq']; rfl)
    · intro heq
      have heq' : matchedModules enum llm ctm topic N = [] := heq
      exact h (by rw [heq']; rfl)

/-- C1 counterexample to the claimed explicit marker: for the out-of-corpus topic
with an empty collaborator answer the result is precisely the silent record with
empty combined content and empty sources and nothing else. -/
theorem C1_counterexample :
    fetch_modules_for_topic id (LlmResponse.arr []) [] (fun _ => none)
        "quantum entanglement" 3
      = ⟨"quantum entanglement", [], "", []⟩ :=
  fetch_qe_eval

/-- C1 witness: a concrete run reaching the no-coverage branch of the theorem. -/
theorem C1_witness :
    (fetch_modules_for_topic id (LlmResponse.arr []) [] (fun _ => none)
        "quantum entanglement" 3).matched_modules = []
  ∧ fetch_modules_for_topic id (LlmResponse.arr []) [] (fun _ => none)
        "quantum entanglement" 3
      = ⟨"quantum entanglement", [], "", []⟩ := by
  have h : (fetch_modules_for_topic id (LlmResponse.arr []) [] (fun _ => none)
      "quantum entanglement" 3).matched_modules = [] := by
    rw [fetch_qe_eval]
  refine ⟨h, ?_⟩
  rcases C1_amended_no_marker id (LlmResponse.arr []) [] (fun _ => none)
      "quantum entanglement" 3 with h1 | h1
  · exact h1
  · exact absurd h h1

/-- C2: the collaborator matcher returns the fixed default chapter on failure and
on malformed payloads, returns well-formed arrays truncated but unvalidated, and
validation happens in the caller: an unknown first slug yields the empty result,
and every module entry a resolution produces has a catalog hit on its id. -/
theorem C2_amended_default_fallback :
    (∀ N : Nat, llm_match_topic_to_chapters LlmResponse.raises N
        = ["1-1-the-science-of-biology"])
  ∧ (∀ N : Nat, llm_match_topic_to_chapters LlmResponse.nonList N
        = ["1-1-the-science-of-biology"])
  ∧ (∀ (slugs : List String) (N : Nat),
        llm_match_topic_to_chapters (LlmResponse.arr slugs) N = slugs.take N)
  ∧ (∀ (enum : List String → List String) (ctm : List (String × List String))
        (fetchRes : String → Option String) (topic : String) (N : Nat)
        (c0 : String) (rest : List String),
        search_modules enum topic N = [] →
        List.lookup c0 ctm = none →
        fetch_modules_for_topic enum (LlmResponse.arr (c0 :: rest)) ctm fetchRes topic N
          = ⟨topic, [], "", []⟩)
  ∧ (∀ (enum : List String → List String) (llm : LlmResponse)
        (ctm : List (String × List String)) (fetchRes : String → Option String)
        (topic : String) (N : Nat),
        ∀ e ∈ (fetch_modules_for_topic enum llm ctm fetchRes topic N).matched_modules,
          List.lookup e.id MODULE_INDEX ≠ none) := by
  refine ⟨fun N => rfl, fun N => rfl, fun slugs N => rfl, ?_, ?_⟩
  · intro enum ctm fetchRes topic N c0 rest hsearch hlookup
    have hm : matchedModules enum (LlmResponse.arr (c0 :: rest)) ctm topic N = [] := by
      rw [matchedModules, hsearch]
      simp only [List.isEmpty_nil, if_true]
      rw [llmFallbackModules]
      simp [llm_match_topic_to_chapters, hlookup]
    rw [fetch_modules_for_topic, hm]
    rfl
  · intro enum llm ctm fetchRes topic N e he
    rcases fetch_matched_cases enum llm ctm fetchRes topic N with hc | hc
    · rw [hc] at he; cases he
    · rw [hc] at he
      rcases mem_matchedModules enum llm ctm topic N e he with hs | ⟨mid, info, hlook, rfl⟩
      · rcases mem_search_modules enum topic N e hs with ⟨mid, hf, _⟩
        rw [(searchEntryFor_spec _ _ _ hf).1]
        exact (searchEntryFor_spec _ _ _ hf).2
      · simp [hlook]

/-- C2 counterexample to returning an empty list on failure and to in-matcher
validation: failures and malformed payloads yield the fabricated default chapter,
and an unknown identifier is passed through untouched. -/
theorem C2_counterexample :
    llm_match_topic_to_chapters LlmResponse.raises 3 = ["1-1-the-science-of-biology"]
  ∧ llm_match_topic_to_chapters LlmResponse.nonList 3 = ["1-1-the-science-of-biology"]
  ∧ ["1-1-the-science-of-biology"] ≠ ([] : List String)
  ∧ llm_match_topic_to_chapters (LlmResponse.arr ["totally-unknown-chapter"]) 3
      = ["totally-unknown-chapter"] :=
  ⟨rfl, rfl, by decide, rfl⟩

/-- C2 witness: with no keyword match and an unknown first slug the caller-side
validation produces the empty result rather than a fabricated module. -/
theorem C2_witness :
    fetch_modules_for_topic id (LlmResponse.arr ["99-9-not-a-chapter"])
        [("1-1-the-science-of-biology", ["m62717"])] (fun _ => none)
        "quantum entanglement" 3
      = ⟨"quantum entanglement", [], "", []⟩ :=
  C2_amended_default_fallback.2.2.2.1 id [("1-1-the-science-of-biology", ["m62717"])]
    (fun _ => none) "quantum entanglement" 3 "99-9-not-a-chapter" []
    search_qe_empty (by decide)

/-- C3: the tiered fetch returns a bare optional, not a three-state outcome: the
result is None exactly when both tiers produce nothing, a failed GCS read is
indistinguishable from an absent blob, and a network error is indistinguishable
from an HTTP error status; all error branches are caught locally. -/
theorem C3_amended_nullable :
    (∀ (parseOf : String → Option Xml) (g : GcsOutcome) (gh : GithubOutcome) (p : Bool),
        fetch_module_content parseOf g gh p = none ↔
          fetch_module_from_gcs g = none ∧ fetch_module_from_github gh = none)
  ∧ (∀ r : String,
        fetch_module_from_gcs (GcsOutcome.failed r) = fetch_module_from_gcs GcsOutcome.absent)
  ∧ (∀ (r : String) (c : Nat),
        fetch_module_from_github (GithubOutcome.urlError r)
          = fetch_module_from_github (GithubOutcome.httpError c)) := by
  refine ⟨?_, fun r => rfl, fun r c => rfl⟩
  intro parseOf g gh p
  cases g <;> cases gh <;> cases p <;>
    simp [fetch_module_content, fetch_module_from_gcs, fetch_module_from_github]

/-- C3 counterexample to the three-state contract: a transport error and plain
absence produce the identical bare None, on each tier and through the full
tiered fetch. -/
theorem C3_counterexample :
    fetch_module_from_gcs GcsOutcome.absent = none
  ∧ fetch_module_from_gcs (GcsOutcome.failed "connection reset") = none
  ∧ fetch_module_from_github (GithubOutcome.httpError 404) = none
  ∧ fetch_module_from_github (GithubOutcome.urlError "timed out") = none
  ∧ fetch_module_content (fun _ => none) GcsOutcome.absent (GithubOutcome.urlError "timed out") true
      = fetch_module_content (fun _ => none) GcsOutcome.absent (GithubOutcome.httpError 404) true
  ∧ fetch_module_content (fun _ => none) GcsOutcome.absent (GithubOutcome.urlError "timed out") true
      = none :=
  ⟨rfl, rfl, rfl, rfl, rfl, rfl⟩

/-- C4: for every admissible enumeration of the matched set the search result is
truncated to at most N entries whose ids are free of duplicates and drawn from
the matched id set; its order is whatever the enumeration produced, nothing more. -/
theorem C4_amended_dedup_trunc (enum : List String → List String) (topic : String) (N : Nat)
    (henum : ∀ l : List String, (enum l).Perm l) :
    (search_modules enum topic N).length ≤ N
  ∧ ((search_modules enum topic N).map (fun e => e.id)).Nodup
  ∧ ∀ e ∈ search_modules enum topic N, e.id ∈ matchedIdsList topic := by
  refine ⟨?_, ?_, ?_⟩
  · rw [search_modules, List.length_take]
    exact min_le_left _ _
  · rw [search_modules, List.map_take]
    have h0 : (matchedIdsList topic).Nodup := nodup_matchedIdsList topic
    have h1 : (enum (matchedIdsList topic)).Nodup := ((henum _).nodup_iff).mpr h0
    have h2 : ((enum (matchedIdsList topic)).take N).Nodup :=
      List.Nodup.sublist (List.take_sublist _ _) h1
    have h3 := ids_filterMap_sublist (pyLower topic.data) ((enum (matchedIdsList topic)).take N)
    exact List.Nodup.sublist (List.take_sublist _ _) (List.Nodup.sublist h3 h2)
  · intro e he
    rcases mem_search_modules enum topic N e he with ⟨mid, hf, hmid⟩
    rw [(searchEntryFor_spec _ _ _ hf).1]
    exact (henum _).subset hmid

/-- C4 counterexample to insertion-order preservation: under the reversed
enumeration, an admissible iteration order of the Python set, the metabolism
result lists m62778 before m62763 while the keyword table inserts m62763 first,
so the result ids are not a sublist of the insertion-ordered matched set. -/
theorem C4_counterexample :
    (search_modules List.reverse "metabolism" 3).map (fun e => e.id) = ["m62778", "m62763"]
  ∧ matchedIdsList "metabolism" = ["m62763", "m62778", "m62761"]
  ∧ isSublistB ["m62778", "m62763"] ["m62763", "m62778", "m62761"] = false
  ∧ (List.reverse ["m62763", "m62778", "m62761"]).Perm ["m62763", "m62778", "m62761"] :=
  ⟨search_metabolism_rev_ids, matched_ids_metabolism, by decide, List.reverse_perm _⟩

/-- C4 witness: the identity enumeration satisfies the permutation hypothesis and
the atp search obeys the truncation and deduplication bounds. -/
theorem C4_witness :
    (search_modules id "atp" 3).length ≤ 3
  ∧ ((search_modules id "atp" 3).map (fun e => e.id)).Nodup :=
  ⟨(C4_amended_dedup_trunc id "atp" 3 (fun l => List.Perm.refl l)).1,
   (C4_amended_dedup_trunc id "atp" 3 (fun l => List.Perm.refl l)).2.1⟩

/-- C5: a single-word keyword of the table that matches the topic at a word
boundary contributes every one of its units to the matched id set before the
enumeration, the truncation to N and the Introduction exclusion are applied. -/
theorem C5_amended_pretruncation (k : String) (ids : List String) (topic : String)
    (mid : String)
    (htab : (k, ids) ∈ KEYWORD_TO_MODULES)
    (hsingle : k.data.contains ' ' = false)
    (hmatch : wholeWordMatch k.data (pyLower topic.data) = true)
    (hmid : mid ∈ ids) :
    mid ∈ matchedIdsList topic := by
  have hkm : keywordMatchesTopic k (pyLower topic.data) = true := by
    rw [keywordMatchesTopic, hsingle]
    simpa using hmatch
  have hentry : (k, ids) ∈ matchedKeywordEntries KEYWORD_TO_MODULES (pyLower topic.data) :=
    List.mem_filter.mpr ⟨htab, hkm⟩
  have hmem : mid ∈ keywordMatchedIds (pyLower topic.data) := by
    rw [keywordMatchedIds, mem_insertionDedup, mem_foldr_append]
    exact ⟨(k, ids), hentry, hmid⟩
  rw [matchedIdsList]
  have hne : (keywordMatchedIds (pyLower topic.data)).isEmpty = false := by
    cases hkw : keywordMatchedIds (pyLower topic.data) with
    | nil => rw [hkw] at hmem; cases hmem
    | cons a as => rfl
  rw [hne]
  simpa using hmem

/-- C5 counterexample to inclusion in the final result: the whole-word keyword
metabolism maps to m62761, yet the returned module list omits it, because m62761
is an Introduction module and the result filter drops it. -/
theorem C5_counterexample :
    ("metabolism", ["m62763", "m62778", "m62761"]) ∈ KEYWORD_TO_MODULES
  ∧ "metabolism".data.contains ' ' = false
  ∧ wholeWordMatch "metabolism".data (pyLower "metabolism".data) = true
  ∧ "m62761" ∈ ["m62763", "m62778", "m62761"]
  ∧ (search_modules id "metabolism" 3).map (fun e => e.id) = ["m62763", "m62778"]
  ∧ "m62761" ∉ ["m62763", "m62778"] :=
  ⟨by decide, by decide, by decide, by decide, search_metabolism_ids, by decide⟩

/-- C5 witness: the atp keyword entry satisfies the hypotheses and its first unit
is in the pre-truncation matched set for the topic atp. -/
theorem C5_witness :
    ("atp", ["m62768", "m62763", "m62786"]) ∈ KEYWORD_TO_MODULES
  ∧ "m62768" ∈ matchedIdsList "atp" :=
  ⟨by decide,
   C5_amended_pretruncation "atp" ["m62768", "m62763", "m62786"] "atp" "m62768"
     (by decide) (by decide) (by decide) (by decide)⟩

/-- C6: a single-word keyword whose every occurrence in the topic is internal to a
larger word is never matched by the keyword pass, and a multi-word keyword entry
is matched exactly by plain substring containment. -/
theorem C6_word_boundary :
    (∀ (table : List (String × List String)) (k : String) (ids : List String)
        (topicLower : List Char),
        k.data.contains ' ' = false →
        onlyInsideWords k.data topicLower = true →
        (k, ids) ∉ matchedKeywordEntries table topicLower)
  ∧ (∀ (table : List (String × List String)) (kv : String × List String)
        (topicLower : List Char),
        kv.1.data.contains ' ' = true →
        (kv ∈ matchedKeywordEntries table topicLower ↔
          kv ∈ table ∧ substringOf kv.1.data topicLower = true)) := by
  constructor
  · intro table k ids tl hsingle honly hmem
    have h := (List.mem_filter.mp hmem).2
    rw [keywordMatchesTopic, hsingle] at h
    rw [wholeWordMatch_eq_false_of_onlyInside k.data tl honly] at h
    simp at h
  · intro table kv tl hmulti
    simp only [matchedKeywordEntries, List.mem_filter, keywordMatchesTopic, hmulti, if_true]

/-- C6 witness: vision occurs in cell division only inside the word division and
its entry is not matched, while the multi-word keyword cell cycle matches the
containing topic by substring. -/
theorem C6_witness :
    ("vision", ["m62957"]) ∉
      matchedKeywordEntries KEYWORD_TO_MODULES (pyLower "cell division".data)
  ∧ ("cell cycle", ["m62804", "m62805"]) ∈
      matchedKeywordEntries KEYWORD_TO_MODULES (pyLower "the cell cycle in mitosis".data) := by
  constructor
  · exact C6_word_boundary.1 KEYWORD_TO_MODULES "vision" ["m62957"]
      (pyLower "cell division".data) (by decide) (by decide)
  · exact (C6_word_boundary.2 KEYWORD_TO_MODULES ("cell cycle", ["m62804", "m62805"])
      (pyLower "the cell cycle in mitosis".data) (by decide)).mpr ⟨by decide, by decide⟩

/-- C7: a cached entry is returned unchanged exactly while now minus its insertion
time is below the TTL; once the TTL has elapsed the call refetches, returning the
fresh outcome and leaving the stale entry in place unless a truthy fetch
overwrites it; and two reads within the TTL of one entry return the identical
stored value with the cache untouched. -/
theorem C7_cache_ttl (cache : ModuleCache) (mid : String) (p : Bool) (v : String)
    (t now now2 : Int) (f f2 : Option String)
    (hv : cacheLookup cache (cacheKey mid p) = some (v, t)) :
    (now - t < MODULE_CACHE_TTL →
      fetch_module_content_cached f mid p now cache = (some v, cache))
  ∧ (MODULE_CACHE_TTL ≤ now - t →
      fetch_module_content_cached none mid p now cache = (none, cache))
  ∧ (MODULE_CACHE_TTL ≤ now - t → ∀ w : String, (w == "") = false →
      fetch_module_content_cached (some w) mid p now cache
        = (some w, cacheInsert cache (cacheKey mid p) (w, now)))
  ∧ (now - t < MODULE_CACHE_TTL → now2 - t < MODULE_CACHE_TTL →
      fetch_module_content_cached f2 mid p now2
          (fetch_module_content_cached f mid p now cache).2
        = (some v, cache)) := by
  have hit : ∀ (g : Option String) (tm : Int), tm - t < MODULE_CACHE_TTL →
      fetch_module_content_cached g mid p tm cache = (some v, cache) := by
    intro g tm htm
    rw [fetch_module_content_cached, hv]
    dsimp only
    rw [if_pos htm]
  refine ⟨hit f now, ?_, ?_, ?_⟩
  · intro h
    rw [fetch_module_content_cached, hv]
    dsimp only
    rw [if_neg (not_lt.mpr h)]
    rfl
  · intro h w hw
    rw [fetch_module_content_cached, hv]
    dsimp only
    rw [if_neg (not_lt.mpr h)]
    simp [cacheRefetch, hw]
  · intro h1 h2
    rw [hit f now h1]
    exact hit f2 now2 h2

/-- C7 witness: a concrete cache with one entry inserted at time zero exercises the
fresh hit, the lazy-expiry miss, the overwrite on populate, and the idempotent
double read. -/
theorem C7_witness :
    fetch_module_content_cached (some "fresh text") "m62768" true 10
        [("m62768_True", ("ATP section text", (0 : Int)))]
      = (some "ATP section text", [("m62768_True", ("ATP section text", (0 : Int)))])
  ∧ fetch_module_content_cached none "m62768" true 3600
        [("m62768_True", ("ATP section text", (0 : Int)))]
      = (none, [("m62768_True", ("ATP section text", (0 : Int)))])
  ∧ fetch_module_content_cached (some "new text") "m62768" true 3600
        [("m62768_True", ("ATP section text", (0 : Int)))]
      = (some "new text",
         cacheInsert [("m62768_True", ("ATP section text", (0 : Int)))]
           (cacheKey "m62768" true) ("new text", 3600))
  ∧ fetch_module_content_cached none "m62768" true 3599
        (fetch_module_content_cached (some "fresh text") "m62768" true 10
          [("m62768_True", ("ATP section text", (0 : Int)))]).2
      = (some "ATP section text", [("m62768_True", ("ATP section text", (0 : Int)))]) := by
  have h1 := C7_cache_ttl [("m62768_True", ("ATP section text", (0 : Int)))] "m62768" true
    "ATP section text" 0 10 3599 (some "fresh text") none (by decide)
  have h2 := C7_cache_ttl [("m62768_True", ("ATP section text", (0 : Int)))] "m62768" true
    "ATP section text" 0 3600 0 none none (by decide)
  exact ⟨h1.1 (by decide), h2.2.1 (by decide), h2.2.2.1 (by decide) "new text" (by decide),
    h1.2.2.2 (by decide) (by decide)⟩

/-- C8: the parser is a total function of the parse outcome and the raw text, so
no exception escapes; on parse failure it returns exactly the tag-stripped and
whitespace-stripped input, and that fallback is non-empty whenever the input has a
non-whitespace character outside every tag. -/
theorem C8_amended_fallback (raw : String) :
    parse_cnxml_to_text none raw = asString (pyStrip (stripTags raw.data))
  ∧ (containsNonTagChar raw = true → parse_cnxml_to_text none raw ≠ "") := by
  refine ⟨rfl, ?_⟩
  intro h hempty
  rw [containsNonTagChar, List.any_eq_true] at h
  obtain ⟨c, hc, hcs⟩ := h
  have hs : pyIsSpace c = false := by simpa using hcs
  have hnil : pyStrip (stripTags raw.data) = [] := congrArg String.data hempty
  exact pyStrip_ne_nil (stripTags raw.data) c hc hs hnil

/-- C8 counterexample to non-emptiness on every input with a non-tag character:
the markup parses successfully but contains none of the recognised content
elements, so the extraction returns the empty string although the raw text holds
the non-tag character x. -/
theorem C8_counterexample :
    parse_cnxml_to_text (some (Xml.elem "root" none (some "x") [] none)) "<root>x</root>" = ""
  ∧ containsNonTagChar "<root>x</root>" = true :=
  ⟨by decide, by decide⟩

/-- C8 witness: a malformed input with text outside its unclosed tag takes the
fallback branch and yields non-empty output. -/
theorem C8_witness :
    containsNonTagChar "<a>hi" = true ∧ parse_cnxml_to_text none "<a>hi" ≠ "" :=
  ⟨by decide, (C8_amended_fallback "<a>hi").2 (by decide)⟩

/-- C9: the sources list of a resolution is empty or is one single citation built
by get_source_citation from the full matched id list, never one citation per unit
that produced text. -/
theorem C9_amended_single_citation (enum : List String → List String) (llm : LlmResponse)
    (ctm : List (String × List String)) (fetchRes : String → Option String)
    (topic : String) (N : Nat) :
    (fetch_modules_for_topic enum llm ctm fetchRes topic N).sources = []
    ∨ (fetch_modules_for_topic enum llm ctm fetchRes topic N).sources
        = [get_source_citation
            ((fetch_modules_for_topic enum llm ctm fetchRes topic N).matched_modules.map
              (fun e => e.id))] := by
  rw [fetch_modules_for_topic]
  split
  · exact Or.inl rfl
  · split
    · exact Or.inl rfl
    · exact Or.inr rfl

/-- C9 counterexample to one citation per producing unit: two of the three matched
atp modules produce text while the first does not, yet sources holds exactly one
citation, titled after the first matched module, the one that produced nothing. -/
theorem C9_counterexample :
    (fetch_modules_for_topic id (LlmResponse.arr []) [] atpFetchStub "atp" 3).matched_modules.map
        (fun e => e.id)
      = ["m62768", "m62763", "m62786"]
  ∧ atpFetchStub "m62768" = none
  ∧ atpFetchStub "m62763" = some "Text about energy and metabolism."
  ∧ atpFetchStub "m62786" = some "Text about energy in living systems."
  ∧ (fetch_modules_for_topic id (LlmResponse.arr []) [] atpFetchStub "atp" 3).sources.length = 1
  ∧ (fetch_modules_for_topic id (LlmResponse.arr []) [] atpFetchStub "atp" 3).sources.map
        (fun c => c.title)
      = ["Metabolism: ATP: Adenosine Triphosphate"] := by
  refine ⟨?_, by decide, by decide, by decide, ?_, ?_⟩
  · simp only [fetch_modules_for_topic, matchedModules, search_modules]
    rw [matched_ids_atp]
    decide
  · simp only [fetch_modules_for_topic, matchedModules, search_modules]
    rw [matched_ids_atp]
    decide
  · simp only [fetch_modules_for_topic, matchedModules, search_modules]
    rw [matched_ids_atp]
    decide

/-- C10: a fetch that produces nothing, None or the empty string, leaves the cache
exactly as it was, and any call preserves the invariant that every cached value is
a non-empty string. -/
theorem C10_cache_no_empty (f : Option String) (mid : String) (p : Bool) (now : Int)
    (cache : ModuleCache) (hf : f = none ∨ f = some "") :
    (fetch_module_content_cached f mid p now cache).2 = cache
  ∧ ∀ f2 : Option String,
      (∀ e ∈ cache, e.2.1 ≠ "") →
      ∀ e ∈ (fetch_module_content_cached f2 mid p now cache).2, e.2.1 ≠ "" := by
  constructor
  · rcases cache_after_fetch f mid p now cache with h | ⟨w, hw, hfw, _⟩
    · exact h
    · exfalso
      rcases hf with rfl | rfl
      · cases hfw
      · injection hfw with h'
        rw [← h'] at hw
        cases hw
  · intro f2 hinv e he
    rcases cache_after_fetch f2 mid p now cache with h | ⟨w, hw, hfw, h⟩
    · rw [h] at he
      exact hinv e he
    · rw [h] at he
      rcases mem_cacheInsert cache (cacheKey mid p) (w, now) e he with rfl | hmem
      · intro h'
        rw [show w = "" from h'] at hw
        cases hw
      · exact hinv e hmem

/-- C10 witness: a call whose fetch produces None and one whose fetch produces the
empty string both leave a concrete one-entry cache unchanged. -/
theorem C10_witness :
    (fetch_module_content_cached none "m62900" true 9999
        [("m62768_True", ("ATP section text", (0 : Int)))]).2
      = [("m62768_True", ("ATP section text", (0 : Int)))]
  ∧ (fetch_module_content_cached (some "") "m62900" true 9999
        [("m62768_True", ("ATP section text", (0 : Int)))]).2
      = [("m62768_True", ("ATP section text", (0 : Int)))] :=
  ⟨(C10_cache_no_empty none "m62900" true 9999
      [("m62768_True", ("ATP section text", (0 : Int)))] (Or.inl rfl)).1,
   (C10_cache_no_empty (some "") "m62900" true 9999
      [("m62768_True", ("ATP section text", (0 : Int)))] (Or.inr rfl)).1⟩

end A2UI
